import Mathlib

/-!
# Memory bus transactor and CPU simulator of the MCPU model

Shallow embedding of the cycle-stepped Avalon-style memory model
`Cmod_MCPU_MEM_mc` (src/sim/Cmod_MCPU_MEM_mc.cpp) with the properties of its `clk`
method, of the bit-field macros of src/sim/cpu_sim/cpu_sim.h, and of the packet executor
that cpu_sim.h declares and src/sim/cpu_sim/cpu_sim_main.cc drives.

Conventions of the embedding of the memory model:
* one-bit port signals are `Bool`; wider unsigned signals are `Nat`;
* `uint32_t` arithmetic is `Nat` arithmetic reduced `% 2 ^ 32`;
* `burst_cycrem` is a signed counter, an `Int`;
* a failed `SIM_CHECK` ends the cycle with `Except.error`;
* the value returned by `Sim::random(100)` is an argument of `clk`;
* `memory` is a map from byte offsets to bytes; statements that name the bytes
  `A * 16 + i` of line `A` take `A * 16 + 15 < 2 ^ 32`, so that the `uint32_t`
  offset `memad = addr * 16` does not wrap.
-/

namespace MCPU

/-- Modelled from the spec: the check helper `SIM_CHECK` of the absent header `Sim.h`.
A failed check is a fatal protocol fault: the model halts instead of continuing
(spec, error handling: "fatal-by-design assertions"). -/
def SIM_CHECK (cond : Bool) (msg : String) : Except String Unit :=
  if cond then Except.ok () else Except.error msg

/-- Modelled from the spec: the port bundle `Cmod_MCPU_MEM_mc_ports` of the absent header
`Cmod_MCPU_MEM_mc.h`, with the fields `clk` dereferences (spec, bus request/response
surface). Inputs: `addr`, `be`, `burstbegin`, `read_req`, `size`, `wdata`, `write_req`.
Outputs: `ready`, `rdata`, `rdata_valid`. `wdata` and `rdata` are arrays of four
32-bit words, indexed `0..3`. -/
structure Cmod_MCPU_MEM_mc_ports where
  ltc2mc_avl_addr_0 : Nat
  ltc2mc_avl_be_0 : Nat
  ltc2mc_avl_burstbegin_0 : Bool
  ltc2mc_avl_read_req_0 : Bool
  ltc2mc_avl_size_0 : Nat
  ltc2mc_avl_wdata_0 : Nat → Nat
  ltc2mc_avl_write_req_0 : Bool
  ltc2mc_avl_ready_0 : Bool
  ltc2mc_avl_rdata_0 : Nat → Nat
  ltc2mc_avl_rdata_valid_0 : Bool

/-- Modelled from the spec: the members of class `Cmod_MCPU_MEM_mc` (declared in the absent
header `Cmod_MCPU_MEM_mc.h`) that the constructor and `clk` use. `memory` is the
byte-addressable backing store, indexed by the 32-bit byte offset `memad + i`. -/
structure Cmod_MCPU_MEM_mc where
  ports : Cmod_MCPU_MEM_mc_ports
  burst_cycrem : Int
  burst_rnw : Bool
  ltc2mc_avl_read_req_0_last : Bool
  ltc2mc_avl_write_req_0_last : Bool
  memory : Nat → Nat

/-- The values a requester puts on the input ports before a clock edge. -/
structure Request where
  burstbegin : Bool
  read_req : Bool
  write_req : Bool
  addr : Nat
  size : Nat
  be : Nat
  wdata : Nat → Nat

/-- The requester drives the input ports; the output ports and the model state are kept. -/
def Cmod_MCPU_MEM_mc.drive (self : Cmod_MCPU_MEM_mc) (r : Request) : Cmod_MCPU_MEM_mc :=
  { self with
    ports :=
      { self.ports with
        ltc2mc_avl_addr_0 := r.addr
        ltc2mc_avl_be_0 := r.be
        ltc2mc_avl_burstbegin_0 := r.burstbegin
        ltc2mc_avl_read_req_0 := r.read_req
        ltc2mc_avl_size_0 := r.size
        ltc2mc_avl_wdata_0 := r.wdata
        ltc2mc_avl_write_req_0 := r.write_req } }

/-- Constructor `Cmod_MCPU_MEM_mc::Cmod_MCPU_MEM_mc` (lines 4-14): no burst, outputs cleared,
previous request lines low. The content of `memory` is not set by the constructor. -/
def Cmod_MCPU_MEM_mc.new (_ports : Cmod_MCPU_MEM_mc_ports) (memory : Nat → Nat) :
    Cmod_MCPU_MEM_mc :=
  { ports :=
      { _ports with
        ltc2mc_avl_ready_0 := false
        ltc2mc_avl_rdata_valid_0 := false
        ltc2mc_avl_rdata_0 := fun i => if i < 4 then 0 else _ports.ltc2mc_avl_rdata_0 i }
    burst_cycrem := 0
    burst_rnw := false
    ltc2mc_avl_read_req_0_last := false
    ltc2mc_avl_write_req_0_last := false
    memory := memory }

/-- Byte `i` of the written line (line 49): `(wdata[i / 4] >> ((i % 4) * 8)) & 0xFF`. -/
def wbyte (wdata : Nat → Nat) (i : Nat) : Nat :=
  (wdata (i / 4) >>> ((i % 4) * 8)) &&& 0xFF

/-- One iteration of the write loop (lines 48-49). -/
def writeStep (be : Nat) (wdata : Nat → Nat) (memad : Nat) (memory : Nat → Nat) (i : Nat) :
    Nat → Nat :=
  if be &&& (1 <<< i) != 0 then
    Function.update memory ((memad + i) % 2 ^ 32) (wbyte wdata i)
  else memory

/-- The write loop `for (i = 0; i < 16; i++)` (lines 47-49). -/
def writeLine (be : Nat) (wdata : Nat → Nat) (memad : Nat) (memory : Nat → Nat) : Nat → Nat :=
  (List.range 16).foldl (writeStep be wdata memad) memory

/-- The word assembled by one iteration of the read loop (lines 60-61), as a `uint32_t`. -/
def rword (memory : Nat → Nat) (memad : Nat) (i : Nat) : Nat :=
  ((memory ((memad + i * 4 + 0) % 2 ^ 32) <<< 0) ||| (memory ((memad + i * 4 + 1) % 2 ^ 32) <<< 8) |||
    (memory ((memad + i * 4 + 2) % 2 ^ 32) <<< 16) |||
    (memory ((memad + i * 4 + 3) % 2 ^ 32) <<< 24)) % 2 ^ 32

/-- The read loop `for (i = 0; i < 4; i++)` (lines 58-61). -/
def readLine (memory : Nat → Nat) (memad : Nat) (rdata : Nat → Nat) : Nat → Nat :=
  (List.range 4).foldl (fun rd i => Function.update rd i (rword memory memad i)) rdata

/-- Method `Cmod_MCPU_MEM_mc::clk` (lines 17-69). `rnd` is the value of `Sim::random(100)`. -/
def Cmod_MCPU_MEM_mc.clk (self : Cmod_MCPU_MEM_mc) (rnd : Nat) :
    Except String Cmod_MCPU_MEM_mc := do
  let ports := self.ports
  let mut burst_cycrem := self.burst_cycrem
  let mut burst_rnw := self.burst_rnw
  let mut memory := self.memory
  if !ports.ltc2mc_avl_ready_0 then
    SIM_CHECK (self.ltc2mc_avl_read_req_0_last == ports.ltc2mc_avl_read_req_0)
      "read request changed during not ready"
    SIM_CHECK (self.ltc2mc_avl_write_req_0_last == ports.ltc2mc_avl_write_req_0)
      "write request changed during not ready"
  else
    if burst_cycrem != 0 then
      if burst_rnw then
        if ports.ltc2mc_avl_read_req_0 then
          burst_cycrem := burst_cycrem - 1
        SIM_CHECK (!ports.ltc2mc_avl_write_req_0) "write during read burst"
      else
        if ports.ltc2mc_avl_write_req_0 then
          burst_cycrem := burst_cycrem - 1
        SIM_CHECK (!ports.ltc2mc_avl_read_req_0) "read during write burst"
      SIM_CHECK (!ports.ltc2mc_avl_burstbegin_0) "burst start during burst"
    else if ports.ltc2mc_avl_burstbegin_0 then
      SIM_CHECK (xor ports.ltc2mc_avl_read_req_0 ports.ltc2mc_avl_write_req_0)
        "invalid burst start type"
      burst_cycrem := (ports.ltc2mc_avl_size_0 : Int) - 1
      burst_rnw := ports.ltc2mc_avl_read_req_0
    else
      SIM_CHECK (!ports.ltc2mc_avl_read_req_0 && !ports.ltc2mc_avl_write_req_0)
        "read or write outside of burst"
    if ports.ltc2mc_avl_write_req_0 then
      let memad := (ports.ltc2mc_avl_addr_0 * 16) % 2 ^ 32
      memory := writeLine ports.ltc2mc_avl_be_0 ports.ltc2mc_avl_wdata_0 memad memory
  let rdata_valid := ports.ltc2mc_avl_read_req_0 && ports.ltc2mc_avl_ready_0
  let mut rdata := ports.ltc2mc_avl_rdata_0
  if ports.ltc2mc_avl_read_req_0 then
    let memad := (ports.ltc2mc_avl_addr_0 * 16) % 2 ^ 32
    rdata := readLine memory memad rdata
  return {
    ports :=
      { ports with
        ltc2mc_avl_rdata_valid_0 := rdata_valid
        ltc2mc_avl_rdata_0 := rdata
        ltc2mc_avl_ready_0 := decide (rnd < 96) }
    burst_cycrem := burst_cycrem
    burst_rnw := burst_rnw
    ltc2mc_avl_write_req_0_last := ports.ltc2mc_avl_write_req_0
    ltc2mc_avl_read_req_0_last := ports.ltc2mc_avl_read_req_0
    memory := memory }

/-- A cycle reports a protocol fault when a `SIM_CHECK` of `clk` fails. -/
def faults (r : Except String Cmod_MCPU_MEM_mc) : Bool :=
  match r with
  | Except.ok _ => false
  | Except.error _ => true

/-- The write loop run for the first `n` indices. -/
def writeUpTo (be : Nat) (wdata : Nat → Nat) (memad : Nat) (memory : Nat → Nat) (n : Nat) :
    Nat → Nat :=
  (List.range n).foldl (writeStep be wdata memad) memory

/-- The state a completed cycle returns; `dflt` stands in for a cycle that faulted. -/
def stateAfter (r : Except String Cmod_MCPU_MEM_mc) (dflt : Cmod_MCPU_MEM_mc) :
    Cmod_MCPU_MEM_mc :=
  match r with
  | Except.ok s' => s'
  | Except.error _ => dflt

/-! ## Concrete states and requests used as test inputs -/

/-- Ports with every request line low and all data zero. -/
def exPorts : Cmod_MCPU_MEM_mc_ports :=
  { ltc2mc_avl_addr_0 := 0
    ltc2mc_avl_be_0 := 0
    ltc2mc_avl_burstbegin_0 := false
    ltc2mc_avl_read_req_0 := false
    ltc2mc_avl_size_0 := 0
    ltc2mc_avl_wdata_0 := fun _ => 0
    ltc2mc_avl_write_req_0 := false
    ltc2mc_avl_ready_0 := false
    ltc2mc_avl_rdata_0 := fun _ => 0
    ltc2mc_avl_rdata_valid_0 := false }

/-- A backing store whose byte at offset `a` is `(7 * a + 3) % 256`. -/
def exMem : Nat → Nat := fun a => (7 * a + 3) % 256

/-- The transactor right after construction. -/
def exInit : Cmod_MCPU_MEM_mc := Cmod_MCPU_MEM_mc.new exPorts exMem

/-- An idle transactor whose port is ready. -/
def exIdle : Cmod_MCPU_MEM_mc :=
  { exInit with ports := { exInit.ports with ltc2mc_avl_ready_0 := true } }

/-- Four data words with sixteen distinct bytes `0x00 .. 0x0F`. -/
def exW : Nat → Nat := fun i => 0x03020100 + 0x04040404 * i

/-- Four data words with all bytes `0xEE`. -/
def exW2 : Nat → Nat := fun _ => 0xEEEEEEEE

/-- A request with no line asserted. -/
def exNoReq : Request :=
  { burstbegin := false, read_req := false, write_req := false, addr := 0, size := 0,
    be := 0, wdata := fun _ => 0 }

/-- A single-beat write burst at line 3 enabling bytes 4..7 only. -/
def exWriteReq : Request :=
  { burstbegin := true, read_req := false, write_req := true, addr := 3, size := 1,
    be := 0x00F0, wdata := exW }

/-- A four-beat read burst at line 3. -/
def exReadReq : Request :=
  { burstbegin := true, read_req := true, write_req := false, addr := 3, size := 4,
    be := 0, wdata := fun _ => 0 }

/-- A later beat of a burst: a read request without `burst_begin`. -/
def exReadBeat : Request :=
  { burstbegin := false, read_req := true, write_req := false, addr := 3, size := 4,
    be := 0, wdata := fun _ => 0 }

/-- The first beat of a two-beat write burst at line 0 with all bytes enabled. -/
def exWriteBegin2 : Request :=
  { burstbegin := true, read_req := false, write_req := true, addr := 0, size := 2,
    be := 0xFFFF, wdata := exW }

/-- The second beat of that write burst, carrying other data. -/
def exWriteBeat2 : Request :=
  { burstbegin := false, read_req := false, write_req := true, addr := 0, size := 2,
    be := 0xFFFF, wdata := exW2 }

/-- A transactor inside a read burst with three beats remaining and the port ready. -/
def exInRead : Cmod_MCPU_MEM_mc :=
  { exIdle with burst_cycrem := 3, burst_rnw := true }

/-- The input-driven state of a single-beat partial write at line 3 on a ready port. -/
def exWriteCycle : Cmod_MCPU_MEM_mc := exIdle.drive exWriteReq

/-- The input-driven state of a read burst begin at line 3 on a ready port. -/
def exReadCycle : Cmod_MCPU_MEM_mc := exIdle.drive exReadReq

/-- The input-driven state of a read beat inside a read burst on a ready port. -/
def exInReadCycle : Cmod_MCPU_MEM_mc := exInRead.drive exReadBeat

/-- The input-driven state of an idle cycle on a ready port. -/
def exIdleCycle : Cmod_MCPU_MEM_mc := exIdle.drive exNoReq

/-- The input-driven state of the first beat of the two-beat write burst on a ready port. -/
def exWriteBegin2Cycle : Cmod_MCPU_MEM_mc := exIdle.drive exWriteBegin2

/-- A run of cycles: before each `clk` the requester drives the inputs, and `clk` gets the
draw of that cycle; the run stops at the first protocol fault. -/
def Cmod_MCPU_MEM_mc.run (self : Cmod_MCPU_MEM_mc) :
    List (Request × Nat) → Except String Cmod_MCPU_MEM_mc
  | [] => Except.ok self
  | (r, rnd) :: rest =>
    match (self.drive r).clk rnd with
    | Except.ok s' => s'.run rest
    | Except.error e => Except.error e

/-- The state after construction, an idle cycle after which the port is ready (draw 0),
and the first beat of a two-beat write burst at line 0 after which the port is not ready
(draw 99). -/
def exStalled : Cmod_MCPU_MEM_mc :=
  { ports :=
      { exInit.ports with
        ltc2mc_avl_be_0 := 0xFFFF
        ltc2mc_avl_burstbegin_0 := true
        ltc2mc_avl_size_0 := 2
        ltc2mc_avl_wdata_0 := exW
        ltc2mc_avl_write_req_0 := true }
    burst_cycrem := 1
    burst_rnw := false
    ltc2mc_avl_read_req_0_last := false
    ltc2mc_avl_write_req_0_last := true
    memory := writeLine 0xFFFF exW 0 exMem }

/-- The stalled state with the requester holding `write_req` and presenting the second
beat of the burst. -/
def exStallCycle : Cmod_MCPU_MEM_mc := exStalled.drive exWriteBeat2

/-- A request that keeps `read_req` low and `write_req` high, as `exWriteBegin2` has them,
and differs from `exWriteBegin2` in `burst_begin`, address, size, byte enables and data. -/
def exChanged : Request :=
  { burstbegin := false, read_req := false, write_req := true, addr := 5, size := 7,
    be := 0x00FF, wdata := exW2 }

/-! ## Bit-field macros of `cpu_sim.h` -/

/-- Macro `BIT_MASK(a, b)` (cpu_sim.h line 8),
`(((unsigned) -1 >> (31 - (b))) & ~((1U << (a)) - 1))`, in 32-bit unsigned arithmetic:
`(unsigned) -1` is `2 ^ 32 - 1`, and `~x` is `x ^ 0xFFFFFFFF`. -/
def BIT_MASK (a b : Nat) : Nat :=
  ((2 ^ 32 - 1) >>> (31 - b)) &&&
    ((((1 <<< a) % 2 ^ 32 + 2 ^ 32 - 1) % 2 ^ 32) ^^^ (2 ^ 32 - 1))

/-- Macro `BITS(word, idx, count)` (cpu_sim.h line 10),
`((word & BIT_MASK(idx, idx + count - 1)) >> idx)`. -/
def BITS (word idx count : Nat) : Nat :=
  (word &&& BIT_MASK idx (idx + count - 1)) >>> idx

/-- Macro `BIT(word, idx)` (cpu_sim.h line 11), `BITS(word, idx, 1)`. -/
def BIT (word idx : Nat) : Nat :=
  BITS word idx 1

/-! ## CPU simulator: data model of `cpu_sim.h` -/

/-- Enumeration `optype_t` (cpu_sim.h lines 58-64). -/
inductive optype_t where
  | BRANCH_OP | ALU_OP | LSU_OP | OTHER_OP | INVALID_OP
  deriving DecidableEq

/-- Enumeration `aluop_t` (cpu_sim.h lines 80-97). -/
inductive aluop_t where
  | ALU_ADD | ALU_AND | ALU_NOR | ALU_OR | ALU_SUB | ALU_RSB | ALU_XOR | ALU_COMPARE
  | ALU_MOV | ALU_MVN | ALU_SXB | ALU_SXH | ALU_RESV1 | ALU_RESV2 | ALU_RESV3 | ALU_RESV4
  deriving DecidableEq

/-- Enumeration `cmpop_t` (cpu_sim.h lines 124-133). -/
inductive cmpop_t where
  | CMP_LTU | CMP_LEU | CMP_EQ | CMP_RESV | CMP_LTS | CMP_LES | CMP_BS | CMP_BC
  deriving DecidableEq

/-- Enumeration `shift_type` (cpu_sim.h lines 152-157). -/
inductive shift_type where
  | LSL | LSR | ASR | ROR
  deriving DecidableEq

/-- Enumeration `lsuop_t` (cpu_sim.h lines 161-170). -/
inductive lsuop_t where
  | LS_LB | LS_LHW | LS_LW | LS_LL | LS_SB | LS_SHW | LS_SW | LS_SC
  deriving DecidableEq

/-- Enumeration `otherop_t` (cpu_sim.h lines 189-206). -/
inductive otherop_t where
  | OTHER_RESV0 | OTHER_BREAK | OTHER_SYSCALL | OTHER_FENCE | OTHER_ERET | OTHER_CPOP
  | OTHER_MVC | OTHER_MTC | OTHER_MULT | OTHER_DIV | OTHER_MFHI | OTHER_MTHI
  | OTHER_SIMD0 | OTHER_SIMD1 | OTHER_SIMD2 | OTHER_SIMD3
  deriving DecidableEq

/-- Structure `regs_t` (cpu_sim.h lines 248-251): `r[32]` and `pc`, each a `uint32_t`. -/
structure regs_t where
  r : Nat → Nat
  pc : Nat

/-- Structure `cpu_t` (cpu_sim.h lines 253-255). -/
structure cpu_t where
  regs : regs_t

/-- Structure `decoded_instruction` (cpu_sim.h lines 257-278): the data members, with
`boost::optional` as `Option`; `reg_t` and `pred_reg_t` are register numbers. -/
structure decoded_instruction where
  raw_instr : Nat
  pred_reg : Nat := 0
  pred_comp : Bool
  optype : optype_t := optype_t.INVALID_OP
  branch_link : Option Bool := none
  aluop : Option aluop_t := none
  cmpop : Option cmpop_t := none
  lsuop : Option lsuop_t := none
  otherop : Option otherop_t := none
  constant : Option Nat := none
  offset : Option Int := none
  rs : Option Nat := none
  rd : Option Nat := none
  rt : Option Nat := none
  pd : Option Nat := none
  shiftamt : Option Nat := none
  stype : Option Nat := none
  reserved_bits : Option Nat := none
  long_imm : Bool := false

/-- Structure `decoded_packet` (cpu_sim.h lines 296-304): `instr[4]`, indexed `0..3`. -/
structure decoded_packet where
  instr : Nat → decoded_instruction

/-- The packet `main` hands to the decoder (cpu_sim_main.cc lines 88-89): the four words
`ROM[i][pc + 0 .. pc + 3]`; `pc` is an index of instruction slots. -/
def fetch_packet (rom : Nat → Nat) (pc : Nat) : List Nat :=
  [rom (pc + 0), rom (pc + 1), rom (pc + 2), rom (pc + 3)]

/-- The first test program of `ROM` (cpu_sim_main.cc lines 41-44); the rest of the row is
zero-initialised. -/
def ROM0 (slot : Nat) : Nat :=
  [0xC0040000, 0xC0044021, 0xC006C042, 0xC8000063,
   0xD1183C00, 0xE0000000, 0xE0000000, 0xE0000000].getD slot 0

/-! ## CPU simulator: the packet executor, modelled from the spec

The bodies of `decoded_instruction::execute_instruction`, `decoded_packet::execute_packet`,
`shiftwith` and of the decoder are not among the sources; `cpu_sim.h` declares them. -/

/-- Modelled from the spec: the CPUState of spec section 3, which `execute_packet` acts on
(its body is missing): the 32 general registers and the program counter of `cpu_t`, the 4
single-bit predicate flags, and the designated link-carrying location of a linking
branch. -/
structure CPUState where
  cpu : cpu_t
  p : Nat → Bool
  link : Nat

/-- Modelled from the spec: the Commit of spec section 3, the result of executing one lane
in the missing `execute_instruction`: nothing (an inactive lane, or a store, which only
issues a bus request), one general-register write, one predicate-flag write, a PC
redirection of a taken branch with its link flag, an exception signal, or an
unimplemented-instruction fault (section 7). -/
inductive Commit where
  | nothing
  | reg (rd : Nat) (v : Nat)
  | pred (pd : Nat) (b : Bool)
  | redirect (target : Nat) (link : Bool)
  | signal
  | fault

/-- Modelled from the spec: predicate evaluation of the missing `execute_instruction`
(section 4.3 step 1): a lane is active iff flag value XOR polarity-complement is true. -/
def lane_active (di : decoded_instruction) (s : CPUState) : Bool :=
  xor (s.p di.pred_reg) di.pred_comp

/-- Modelled from the spec: `shiftwith` (declared at cpu_sim.h line 306, body missing),
section 4.2: the four shift modes on a 32-bit value with an amount `0..31`; amount 0 is
the identity. -/
def shiftwith (value shiftamt : Nat) (stype : shift_type) : Nat :=
  match stype with
  | shift_type.LSL => (value <<< shiftamt) % 2 ^ 32
  | shift_type.LSR => (value % 2 ^ 32) >>> shiftamt
  | shift_type.ASR =>
    if (value % 2 ^ 32) < 2 ^ 31 then (value % 2 ^ 32) >>> shiftamt
    else 2 ^ 32 - 1 - (((2 ^ 32 - 1) - value % 2 ^ 32) >>> shiftamt)
  | shift_type.ROR =>
    (((value % 2 ^ 32) >>> shiftamt) ||| ((value % 2 ^ 32) <<< (32 - shiftamt))) % 2 ^ 32

/-- Modelled from the spec: the shift mode of a decoded `stype` field, in the order of
`shift_type` ("Order must match instruction encoding"). -/
def stype_of (n : Nat) : shift_type :=
  match n % 4 with
  | 0 => shift_type.LSL
  | 1 => shift_type.LSR
  | 2 => shift_type.ASR
  | _ => shift_type.ROR

/-- Modelled from the spec: sign extension of the low `bits` bits to 32 bits (section 4.2,
sign-extend-byte and sign-extend-halfword). -/
def sign_extend (bits : Nat) (x : Nat) : Nat :=
  if x % 2 ^ bits < 2 ^ (bits - 1) then x % 2 ^ bits
  else x % 2 ^ bits + (2 ^ 32 - 2 ^ bits)

/-- Modelled from the spec: the value of a 32-bit word read as a signed integer. -/
def as_signed (x : Nat) : Int :=
  if x % 2 ^ 32 < 2 ^ 31 then ((x % 2 ^ 32 : Nat) : Int)
  else ((x % 2 ^ 32 : Nat) : Int) - 2 ^ 32

/-- Modelled from the spec: the ALU evaluator of section 4.2 (part of the missing
`execute_instruction`): binary operations ADD, AND, NOR, OR, SUB, reverse-subtract, XOR on
`a` and `b`, unary operations MOV, MVN, sign-extend on `b`; reserved sub-opcodes have no
result. COMPARE is evaluated by `cmp_result`. -/
def alu_result (op : aluop_t) (a b : Nat) : Option Nat :=
  match op with
  | aluop_t.ALU_ADD => some ((a + b) % 2 ^ 32)
  | aluop_t.ALU_AND => some ((a &&& b) % 2 ^ 32)
  | aluop_t.ALU_NOR => some (((a ||| b) % 2 ^ 32) ^^^ (2 ^ 32 - 1))
  | aluop_t.ALU_OR => some ((a ||| b) % 2 ^ 32)
  | aluop_t.ALU_SUB => some ((a % 2 ^ 32 + 2 ^ 32 - b % 2 ^ 32) % 2 ^ 32)
  | aluop_t.ALU_RSB => some ((b % 2 ^ 32 + 2 ^ 32 - a % 2 ^ 32) % 2 ^ 32)
  | aluop_t.ALU_XOR => some ((a ^^^ b) % 2 ^ 32)
  | aluop_t.ALU_MOV => some (b % 2 ^ 32)
  | aluop_t.ALU_MVN => some ((b % 2 ^ 32) ^^^ (2 ^ 32 - 1))
  | aluop_t.ALU_SXB => some (sign_extend 8 b)
  | aluop_t.ALU_SXH => some (sign_extend 16 b)
  | _ => none

/-- Modelled from the spec: the compare conditions of section 4.2 (part of the missing
`execute_instruction`): unsigned and signed ordering, equality, and the two bit tests,
read here as testing bit `b mod 32` of `a`; the reserved code has no result. -/
def cmp_result (op : cmpop_t) (a b : Nat) : Option Bool :=
  match op with
  | cmpop_t.CMP_LTU => some (decide (a % 2 ^ 32 < b % 2 ^ 32))
  | cmpop_t.CMP_LEU => some (decide (a % 2 ^ 32 ≤ b % 2 ^ 32))
  | cmpop_t.CMP_EQ => some (decide (a % 2 ^ 32 = b % 2 ^ 32))
  | cmpop_t.CMP_RESV => none
  | cmpop_t.CMP_LTS => some (decide (as_signed a < as_signed b))
  | cmpop_t.CMP_LES => some (decide (as_signed a ≤ as_signed b))
  | cmpop_t.CMP_BS => some (a.testBit (b % 32))
  | cmpop_t.CMP_BC => some (!a.testBit (b % 32))

/-- Modelled from the spec: the second ALU operand of the missing `execute_instruction`
(section 3, Alu payload): the rotated immediate constant when the instruction has one,
else register `rt`, shifted when a shift spec is present. -/
def operand2 (di : decoded_instruction) (r : Nat → Nat) : Option Nat :=
  match di.constant with
  | some c => some (c % 2 ^ 32)
  | none =>
    match di.rt with
    | none => none
    | some rt =>
      match di.shiftamt, di.stype with
      | some amt, some st => some (shiftwith (r rt) amt (stype_of st))
      | _, _ => some (r rt)

/-- Modelled from the spec: the target of a Branch lane in the missing
`execute_instruction` (section 4.3 step 3): the offset form is PC-relative against the
packet's own address `old_pc`, the register form is absolute. -/
def branch_target (di : decoded_instruction) (r : Nat → Nat) (old_pc : Nat) : Option Nat :=
  match di.offset with
  | some off => some (((old_pc : Int) + off) % 2 ^ 32).toNat
  | none =>
    match di.rs with
    | some rs => some (r rs)
    | none => none

/-- Modelled from the spec: an Other-class sub-opcode that signals an architectural
exception (section 7: break, syscall, fence, exception-return). -/
def otherop_signals (op : otherop_t) : Bool :=
  match op with
  | otherop_t.OTHER_BREAK => true
  | otherop_t.OTHER_SYSCALL => true
  | otherop_t.OTHER_FENCE => true
  | otherop_t.OTHER_ERET => true
  | _ => false

/-- Modelled from the spec: the effect of an active ALU lane. -/
def alu_commit (di : decoded_instruction) (r : Nat → Nat) : Commit :=
  match di.aluop, di.rs, operand2 di r with
  | some aluop_t.ALU_COMPARE, some rs, some b =>
    match di.cmpop, di.pd with
    | some cop, some pd =>
      match cmp_result cop (r rs) b with
      | some v => Commit.pred pd v
      | none => Commit.fault
    | _, _ => Commit.fault
  | some op, some rs, some b =>
    match alu_result op (r rs) b, di.rd with
    | some v, some rd => Commit.reg rd v
    | _, _ => Commit.fault
  | _, _, _ => Commit.fault

/-- Modelled from the spec: the effect of an active LoadStore lane. The address is base
register plus signed offset; a load writes the bus response `bus addr` to its destination
register, a store only issues its bus request. -/
def lsu_commit (bus : Nat → Nat) (di : decoded_instruction) (r : Nat → Nat) : Commit :=
  match di.lsuop, di.rs, di.offset with
  | some op, some rs, some off =>
    let addr := (((r rs : Nat) : Int) + off) % 2 ^ 32
    match op with
    | lsuop_t.LS_LB => match di.rd with
      | some rd => Commit.reg rd (bus addr.toNat % 2 ^ 8)
      | none => Commit.fault
    | lsuop_t.LS_LHW => match di.rd with
      | some rd => Commit.reg rd (bus addr.toNat % 2 ^ 16)
      | none => Commit.fault
    | lsuop_t.LS_LW => match di.rd with
      | some rd => Commit.reg rd (bus addr.toNat % 2 ^ 32)
      | none => Commit.fault
    | lsuop_t.LS_LL => match di.rd with
      | some rd => Commit.reg rd (bus addr.toNat % 2 ^ 32)
      | none => Commit.fault
    | _ => Commit.nothing
  | _, _, _ => Commit.fault

/-- Modelled from the spec: the lane step of the missing
`decoded_instruction::execute_instruction` (section 4.3 steps 1-2). An inactive lane
produces no commit; an active lane computes its effect from the pre-packet snapshot `s`
only. Invalid and reserved encodings, and Other-class operations whose semantics the spec
leaves out, are unimplemented-instruction faults. -/
def lane_execute (bus : Nat → Nat) (di : decoded_instruction) (s : CPUState)
    (old_pc : Nat) : Commit :=
  if lane_active di s then
    match di.optype with
    | optype_t.ALU_OP => alu_commit di s.cpu.regs.r
    | optype_t.LSU_OP => lsu_commit bus di s.cpu.regs.r
    | optype_t.BRANCH_OP =>
      match branch_target di s.cpu.regs.r old_pc with
      | some t => Commit.redirect t (di.branch_link == some true)
      | none => Commit.fault
    | optype_t.OTHER_OP =>
      match di.otherop with
      | some op => if otherop_signals op then Commit.signal else Commit.fault
      | none => Commit.fault
    | optype_t.INVALID_OP => Commit.fault
  else Commit.nothing

/-- Modelled from the spec: whether a commit is an exception signal. -/
def Commit.isSignal (c : Commit) : Bool :=
  match c with
  | Commit.signal => true
  | _ => false

/-- Modelled from the spec: whether a commit is an unimplemented-instruction fault. -/
def Commit.isFault (c : Commit) : Bool :=
  match c with
  | Commit.fault => true
  | _ => false

/-- Modelled from the spec: applying one lane's commit in the missing `execute_packet`
(section 4.3 step 3). A redirection sets the PC and, with the link flag, stores the
return address `old_pc + 4`. When the packet is squashed (it signals or faults) register,
flag and link writes are dropped: scenario 2 of section 8 asks for "no register
mutation". -/
def Commit.apply (c : Commit) (squash : Bool) (old_pc : Nat) (s : CPUState) : CPUState :=
  match c with
  | Commit.reg rd v =>
    if squash then s
    else { s with cpu := { regs := { s.cpu.regs with r := Function.update s.cpu.regs.r rd v } } }
  | Commit.pred pd b =>
    if squash then s else { s with p := Function.update s.p pd b }
  | Commit.redirect target link =>
    { s with
      cpu := { regs := { s.cpu.regs with pc := target } }
      link := if link && !squash then (old_pc + 4) % 2 ^ 32 else s.link }
  | _ => s

/-- Modelled from the spec: the result of the missing `execute_packet`: the `bool` it
returns (packet-terminal status), the unimplemented-instruction report, and the state. -/
structure packet_result where
  terminal : Bool
  fault : Bool
  state : CPUState

/-- Modelled from the spec: the four lane commits of a packet, each computed from the
pre-packet snapshot. -/
def lane_commits (bus : Nat → Nat) (pk : decoded_packet) (s : CPUState) : List Commit :=
  (List.range 4).map (fun i => lane_execute bus (pk.instr i) s s.cpu.regs.pc)

/-- Modelled from the spec: `decoded_packet::execute_packet` (declared at cpu_sim.h line
303, body missing), section 4.3. The PC first takes its fall-through value, one packet
(4 instruction slots) further; then the lane commits are applied in lane order, so a
later lane wins a write conflict (the documented last-lane-wins rule of section 9). The
result is packet-terminal when an active lane signals an exception. -/
def execute_packet (bus : Nat → Nat) (pk : decoded_packet) (s : CPUState) : packet_result :=
  let old_pc := s.cpu.regs.pc
  let commits := lane_commits bus pk s
  let terminal := commits.any Commit.isSignal
  let fault := commits.any Commit.isFault
  let advanced : CPUState :=
    { s with cpu := { regs := { s.cpu.regs with pc := (old_pc + 4) % 2 ^ 32 } } }
  { terminal := terminal
    fault := fault
    state := commits.foldl (fun acc c => c.apply (terminal || fault) old_pc acc) advanced }

/-- Modelled from the spec: `decoded_instruction::execute_instruction` (declared at
cpu_sim.h line 293, body missing) run on its own: the lane step on the current state and
the application of its commit; the `bool` is the exception signal. -/
def execute_instruction (bus : Nat → Nat) (di : decoded_instruction) (s : CPUState)
    (old_pc : Nat) : Bool × CPUState :=
  let c := lane_execute bus di s old_pc
  (c.isSignal, c.apply (c.isSignal || c.isFault) old_pc s)

/-- A lane that signals an architectural exception: an active Other-class lane with a
break, syscall, fence or exception-return sub-opcode. -/
def lane_signals (di : decoded_instruction) (s : CPUState) : Bool :=
  lane_active di s && decide (di.optype = optype_t.OTHER_OP) &&
    (match di.otherop with
     | some op => otherop_signals op
     | none => false)

/-- Modelled from the spec: the constructor `decoded_packet(instruction_packet)` (declared
at cpu_sim.h line 299, body missing): the four words of a packet, each decoded by the
decoder `decode`, which is missing too and is a parameter. -/
def decoded_packet_of (decode : Nat → decoded_instruction) (words : List Nat) :
    decoded_packet :=
  { instr := fun i => decode (words.getD i 0) }

/-- The packet loop of `main` (cpu_sim_main.cc lines 81-98), bounded by `fuel`
iterations: fetch the packet at `pc`, decode it, execute it, and stop when
`execute_packet` returns true. The `Bool` tells whether the loop stopped. -/
def main_loop (bus : Nat → Nat) (decode : Nat → decoded_instruction) (rom : Nat → Nat) :
    Nat → CPUState → Bool × CPUState
  | 0, s => (false, s)
  | fuel + 1, s =>
    let res := execute_packet bus (decoded_packet_of decode (fetch_packet rom s.cpu.regs.pc)) s
    if res.terminal then (true, res.state) else main_loop bus decode rom fuel res.state

/-- The redirection target of a commit, if it is one. -/
def Commit.target (c : Commit) : Option Nat :=
  match c with
  | Commit.redirect t _ => some t
  | _ => none

/-! ## Documented instruction words and test inputs of the CPU simulator -/

/-- Modelled from the spec: the decoded form of the word `0xE0000000`, which the comment
at cpu_sim_main.cc line 9 documents as `NOP: ADD R0 <- R0 + R0 (!P3)` (the decoder that
would produce it is missing). -/
def instr_NOP : decoded_instruction :=
  { raw_instr := 0xE0000000, pred_reg := 3, pred_comp := true,
    optype := optype_t.ALU_OP, aluop := some aluop_t.ALU_ADD,
    rs := some 0, rt := some 0, rd := some 0 }

/-- Modelled from the spec: the decoded form of an `ADD Rd <- Rd + c (P3)` word with the
rotated constant `c` already expanded, as the comments at cpu_sim_main.cc lines 21-36
document the words `0xC0040000`, `0xC0044021`, `0xC006C042` and `0xC8000063`. -/
def instr_ADD_const (raw rd c : Nat) : decoded_instruction :=
  { raw_instr := raw, pred_reg := 3, pred_comp := false,
    optype := optype_t.ALU_OP, aluop := some aluop_t.ALU_ADD,
    rs := some rd, rd := some rd, constant := some c }

/-- Modelled from the spec: the decoded form of the word `0xC0040000`,
`ADD R0 <- R0 + 0x1 (P3)` (cpu_sim_main.cc lines 21-22). -/
def instr_ADD_R0_1 : decoded_instruction := instr_ADD_const 0xC0040000 0 1

/-- Modelled from the spec: the decoded form of the word `0xD1183C00`, which the comment
at cpu_sim_main.cc line 10 documents as `HALT: BREAK 0x1FU` under `P3`. -/
def instr_HALT : decoded_instruction :=
  { raw_instr := 0xD1183C00, pred_reg := 3, pred_comp := false,
    optype := optype_t.OTHER_OP, otherop := some otherop_t.OTHER_BREAK,
    constant := some 0x1F }

/-- A decoder for test inputs: it knows the words of the first test program, with the
meaning the comments of cpu_sim_main.cc give them; every other word is `INVALID_OP`. -/
def docDecode (w : Nat) : decoded_instruction :=
  if w = 0xE0000000 then instr_NOP
  else if w = 0xC0040000 then instr_ADD_R0_1
  else if w = 0xC0044021 then instr_ADD_const 0xC0044021 1 0x40000000
  else if w = 0xC006C042 then instr_ADD_const 0xC006C042 2 0x400
  else if w = 0xC8000063 then instr_ADD_const 0xC8000063 3 0x200
  else if w = 0xD1183C00 then instr_HALT
  else { raw_instr := w, pred_comp := false }

/-- A CPU state for test inputs: register `i` holds `10 * i + 7`, `pc` is 0, only
predicate flag `P3` is set. -/
def exCpu : CPUState :=
  { cpu := { regs := { r := fun i => 10 * i + 7, pc := 0 } }
    p := fun i => decide (i = 3)
    link := 0 }

/-- A bus for test inputs that answers every read with zero. -/
def exBus : Nat → Nat := fun _ => 0

/-- The packet of scenario 1: `ADD R0 <- R0 + 1` and three `NOP`s. -/
def exAddPacket : decoded_packet :=
  decoded_packet_of docDecode [0xC0040000, 0xE0000000, 0xE0000000, 0xE0000000]

/-- The packet at slot 4 of the first test program: `HALT` and three `NOP`s. -/
def exHaltPacket : decoded_packet :=
  decoded_packet_of docDecode (fetch_packet ROM0 4)

/-- The test state at `pc = 4`, where the first test program holds its `HALT` packet. -/
def exCpu4 : CPUState :=
  { exCpu with cpu := { regs := { exCpu.cpu.regs with pc := 4 } } }

/-- An `ADD R0 <- R0 + 1` under `P0`, inactive in the test states, whose `P0` is clear. -/
def exInactiveAdd : decoded_instruction :=
  { instr_ADD_R0_1 with pred_reg := 0 }

/-- A packet of four `NOP`s. -/
def exNopPacket : decoded_packet :=
  { instr := fun _ => instr_NOP }

/-! ## Lemmas on the write and read loops -/

/-- The enable test of line 48, `be & (1 << i)`, reads bit `i` of the mask. -/
theorem be_test (be i : Nat) : (be &&& (1 <<< i) != 0) = be.testBit i := by
  rw [Nat.one_shiftLeft, Nat.and_two_pow]
  cases h : be.testBit i <;> simp [Nat.pos_iff_ne_zero.mp, Nat.two_pow_pos]

/-- One iteration of the write loop, with the enable test as `testBit`. -/
theorem writeStep_eq (be : Nat) (wdata : Nat → Nat) (memad : Nat) (memory : Nat → Nat) (i : Nat) :
    writeStep be wdata memad memory i =
      if be.testBit i = true then Function.update memory ((memad + i) % 2 ^ 32) (wbyte wdata i)
      else memory := by
  unfold writeStep
  rw [be_test]

/-- Unrolling the last iteration of the write loop. -/
theorem writeUpTo_succ (be : Nat) (wdata : Nat → Nat) (memad : Nat) (memory : Nat → Nat)
    (n : Nat) :
    writeUpTo be wdata memad memory (n + 1) =
      writeStep be wdata memad (writeUpTo be wdata memad memory n) n := by
  simp [writeUpTo, List.range_succ, List.foldl_append]

/-- Offsets that no enabled iteration targets keep their byte. -/
theorem writeUpTo_frame (be : Nat) (wdata : Nat → Nat) (memad : Nat) (memory : Nat → Nat)
    (x : Nat) (n : Nat)
    (hx : ∀ i, i < n → be.testBit i = true → (memad + i) % 2 ^ 32 ≠ x) :
    writeUpTo be wdata memad memory n x = memory x := by
  induction n with
  | zero => simp [writeUpTo]
  | succ n ih =>
    rw [writeUpTo_succ, writeStep_eq]
    have ih1 := ih (fun i hi hb => hx i (Nat.lt_succ_of_lt hi) hb)
    by_cases hb : be.testBit n = true
    · have hne := hx n (Nat.lt_succ_self n) hb
      rw [if_pos hb, Function.update_noteq (Ne.symm hne), ih1]
    · rw [if_neg hb, ih1]

/-- An enabled iteration `i` below `n` leaves its byte at `memad + i`. -/
theorem writeUpTo_commit (be : Nat) (wdata : Nat → Nat) (memad : Nat) (memory : Nat → Nat)
    (n : Nat) (hn : n ≤ 16) (hm : memad + 15 < 2 ^ 32) (i : Nat) (hi : i < n)
    (hb : be.testBit i = true) :
    writeUpTo be wdata memad memory n (memad + i) = wbyte wdata i := by
  induction n with
  | zero => omega
  | succ n ih =>
    rw [writeUpTo_succ, writeStep_eq]
    by_cases hin : i = n
    · subst hin
      have : (memad + i) % 2 ^ 32 = memad + i := Nat.mod_eq_of_lt (by omega)
      rw [if_pos hb, this, Function.update_same]
    · have hlt : i < n := by omega
      have ih1 := ih (by omega) hlt
      have hne : memad + i ≠ (memad + n) % 2 ^ 32 := by
        have : (memad + n) % 2 ^ 32 = memad + n := Nat.mod_eq_of_lt (by omega)
        omega
      by_cases hbn : be.testBit n = true
      · rw [if_pos hbn, Function.update_noteq hne, ih1]
      · rw [if_neg hbn, ih1]

/-- Four bytes combined with shifts and ors form their little-endian sum. -/
theorem le_word (b0 b1 b2 b3 : Nat) (h0 : b0 < 256) (h1 : b1 < 256) (h2 : b2 < 256)
    :
    (b0 <<< 0 ||| b1 <<< 8 ||| b2 <<< 16 ||| b3 <<< 24) =
      b0 + 256 * b1 + 65536 * b2 + 16777216 * b3 := by
  have e1 : b0 <<< 0 ||| b1 <<< 8 = b0 + 256 * b1 := by
    have := Nat.mul_add_lt_is_or (i := 8) (b := b0) (by omega) b1
    rw [Nat.shiftLeft_zero, Nat.shiftLeft_eq, Nat.lor_comm, Nat.mul_comm b1, ← this]
    norm_num
    omega
  have e2 : (b0 + 256 * b1) ||| b2 <<< 16 = b0 + 256 * b1 + 65536 * b2 := by
    have := Nat.mul_add_lt_is_or (i := 16) (b := b0 + 256 * b1) (by omega) b2
    rw [Nat.shiftLeft_eq, Nat.lor_comm, Nat.mul_comm b2, ← this]
    norm_num
    omega
  have e3 : (b0 + 256 * b1 + 65536 * b2) ||| b3 <<< 24 =
      b0 + 256 * b1 + 65536 * b2 + 16777216 * b3 := by
    have := Nat.mul_add_lt_is_or (i := 24) (b := b0 + 256 * b1 + 65536 * b2) (by omega) b3
    rw [Nat.shiftLeft_eq, Nat.lor_comm, Nat.mul_comm b3, ← this]
    norm_num
    omega
  rw [e1, e2, e3]

/-- A written value is a byte. -/
theorem wbyte_lt (wdata : Nat → Nat) (i : Nat) : wbyte wdata i < 256 := by
  unfold wbyte
  have : (255 : Nat) = 2 ^ 8 - 1 := by norm_num
  rw [show (0xFF : Nat) = 2 ^ 8 - 1 by norm_num, Nat.and_pow_two_sub_one_eq_mod]
  exact Nat.mod_lt _ (by norm_num)

/-- The written value as a quotient and remainder. -/
theorem wbyte_eq (wdata : Nat → Nat) (i : Nat) :
    wbyte wdata i = wdata (i / 4) / 2 ^ ((i % 4) * 8) % 256 := by
  unfold wbyte
  rw [show (0xFF : Nat) = 2 ^ 8 - 1 by norm_num, Nat.and_pow_two_sub_one_eq_mod,
    Nat.shiftRight_eq_div_pow]


/-- The cycles on which `clk` fails a `SIM_CHECK`, branch by branch. -/
theorem clk_faults_iff (s : Cmod_MCPU_MEM_mc) (rnd : Nat) :
    faults (s.clk rnd) = true ↔
      (s.ports.ltc2mc_avl_ready_0 = false ∧
        (s.ltc2mc_avl_read_req_0_last ≠ s.ports.ltc2mc_avl_read_req_0 ∨
          s.ltc2mc_avl_write_req_0_last ≠ s.ports.ltc2mc_avl_write_req_0)) ∨
      (s.ports.ltc2mc_avl_ready_0 = true ∧ s.burst_cycrem ≠ 0 ∧
        ((s.burst_rnw = true ∧ s.ports.ltc2mc_avl_write_req_0 = true) ∨
          (s.burst_rnw = false ∧ s.ports.ltc2mc_avl_read_req_0 = true) ∨
          s.ports.ltc2mc_avl_burstbegin_0 = true)) ∨
      (s.ports.ltc2mc_avl_ready_0 = true ∧ s.burst_cycrem = 0 ∧
        s.ports.ltc2mc_avl_burstbegin_0 = true ∧
        s.ports.ltc2mc_avl_read_req_0 = s.ports.ltc2mc_avl_write_req_0) ∨
      (s.ports.ltc2mc_avl_ready_0 = true ∧ s.burst_cycrem = 0 ∧
        s.ports.ltc2mc_avl_burstbegin_0 = false ∧
        (s.ports.ltc2mc_avl_read_req_0 = true ∨ s.ports.ltc2mc_avl_write_req_0 = true)) := by
  obtain ⟨⟨addr, be, bb, rd, sz, wd, wr, rdy, rdata, rv⟩, cyc, rnw, rl, wl, mem⟩ := s
  unfold Cmod_MCPU_MEM_mc.clk
  by_cases hc : cyc = 0 <;>
  cases bb <;> cases rd <;> cases wr <;> cases rdy <;> cases rnw <;> cases rl <;> cases wl <;>
    simp [SIM_CHECK, bind, Except.bind, pure, Except.pure, faults, hc]

/-- The state returned by a completed `clk`, field by field. -/
theorem clk_ok (s s' : Cmod_MCPU_MEM_mc) (rnd : Nat) (h : s.clk rnd = Except.ok s') :
    (s'.ports.ltc2mc_avl_addr_0 = s.ports.ltc2mc_avl_addr_0 ∧
      s'.ports.ltc2mc_avl_be_0 = s.ports.ltc2mc_avl_be_0 ∧
      s'.ports.ltc2mc_avl_burstbegin_0 = s.ports.ltc2mc_avl_burstbegin_0 ∧
      s'.ports.ltc2mc_avl_read_req_0 = s.ports.ltc2mc_avl_read_req_0 ∧
      s'.ports.ltc2mc_avl_size_0 = s.ports.ltc2mc_avl_size_0 ∧
      s'.ports.ltc2mc_avl_wdata_0 = s.ports.ltc2mc_avl_wdata_0 ∧
      s'.ports.ltc2mc_avl_write_req_0 = s.ports.ltc2mc_avl_write_req_0) ∧
    s'.ports.ltc2mc_avl_ready_0 = decide (rnd < 96) ∧
    s'.ports.ltc2mc_avl_rdata_valid_0 =
      (s.ports.ltc2mc_avl_read_req_0 && s.ports.ltc2mc_avl_ready_0) ∧
    s'.ports.ltc2mc_avl_rdata_0 =
      (if s.ports.ltc2mc_avl_read_req_0 = true then
        readLine s'.memory ((s.ports.ltc2mc_avl_addr_0 * 16) % 2 ^ 32) s.ports.ltc2mc_avl_rdata_0
      else s.ports.ltc2mc_avl_rdata_0) ∧
    s'.ltc2mc_avl_read_req_0_last = s.ports.ltc2mc_avl_read_req_0 ∧
    s'.ltc2mc_avl_write_req_0_last = s.ports.ltc2mc_avl_write_req_0 ∧
    s'.memory =
      (if s.ports.ltc2mc_avl_ready_0 = true ∧ s.ports.ltc2mc_avl_write_req_0 = true then
        writeLine s.ports.ltc2mc_avl_be_0 s.ports.ltc2mc_avl_wdata_0
          ((s.ports.ltc2mc_avl_addr_0 * 16) % 2 ^ 32) s.memory
      else s.memory) ∧
    s'.burst_cycrem =
      (if s.ports.ltc2mc_avl_ready_0 = true then
        if s.burst_cycrem ≠ 0 then
          if (if s.burst_rnw = true then s.ports.ltc2mc_avl_read_req_0
              else s.ports.ltc2mc_avl_write_req_0) = true then s.burst_cycrem - 1
          else s.burst_cycrem
        else if s.ports.ltc2mc_avl_burstbegin_0 = true then (s.ports.ltc2mc_avl_size_0 : Int) - 1
        else s.burst_cycrem
      else s.burst_cycrem) ∧
    s'.burst_rnw =
      (if s.ports.ltc2mc_avl_ready_0 = true ∧ s.burst_cycrem = 0 ∧
          s.ports.ltc2mc_avl_burstbegin_0 = true then s.ports.ltc2mc_avl_read_req_0
      else s.burst_rnw) := by
  obtain ⟨⟨addr, be, bb, rd, sz, wd, wr, rdy, rdata, rv⟩, cyc, rnw, rl, wl, mem⟩ := s
  unfold Cmod_MCPU_MEM_mc.clk at h
  by_cases hc : cyc = 0 <;>
  cases bb <;> cases rd <;> cases wr <;> cases rdy <;> cases rnw <;> cases rl <;> cases wl <;>
    simp [SIM_CHECK, bind, Except.bind, pure, Except.pure, hc] at h <;>
    subst h <;> simp [hc]


/-- Frame of the whole write loop. -/
theorem writeLine_frame (be : Nat) (wdata : Nat → Nat) (memad : Nat) (memory : Nat → Nat)
    (x : Nat) (hx : ∀ i, i < 16 → be.testBit i = true → (memad + i) % 2 ^ 32 ≠ x) :
    writeLine be wdata memad memory x = memory x :=
  writeUpTo_frame be wdata memad memory x 16 hx

/-- Effect of the whole write loop on an enabled byte. -/
theorem writeLine_commit (be : Nat) (wdata : Nat → Nat) (memad : Nat) (memory : Nat → Nat)
    (hm : memad + 15 < 2 ^ 32) (i : Nat) (hi : i < 16) (hb : be.testBit i = true) :
    writeLine be wdata memad memory (memad + i) = wbyte wdata i :=
  writeUpTo_commit be wdata memad memory 16 (Nat.le_refl 16) hm i hi hb

/-- The write loop keeps a store of bytes a store of bytes. -/
theorem writeUpTo_lt (be : Nat) (wdata : Nat → Nat) (memad : Nat) (memory : Nat → Nat)
    (hmem : ∀ a, memory a < 256) (n : Nat) (a : Nat) :
    writeUpTo be wdata memad memory n a < 256 := by
  induction n generalizing a with
  | zero => simpa [writeUpTo] using hmem a
  | succ n ih =>
    rw [writeUpTo_succ, writeStep_eq]
    by_cases hb : be.testBit n = true
    · rw [if_pos hb]
      by_cases ha : a = (memad + n) % 2 ^ 32
      · rw [ha, Function.update_same]
        exact wbyte_lt wdata n
      · rw [Function.update_noteq ha]
        exact ih a
    · rw [if_neg hb]
      exact ih a

/-- The whole write loop keeps a store of bytes a store of bytes. -/
theorem writeLine_lt (be : Nat) (wdata : Nat → Nat) (memad : Nat) (memory : Nat → Nat)
    (hmem : ∀ a, memory a < 256) (a : Nat) : writeLine be wdata memad memory a < 256 :=
  writeUpTo_lt be wdata memad memory hmem 16 a

/-- The read loop sets words `0..3` and keeps the others. -/
theorem readLine_apply (memory : Nat → Nat) (memad : Nat) (rdata : Nat → Nat) (i : Nat) :
    readLine memory memad rdata i = if i < 4 then rword memory memad i else rdata i := by
  have h4 : List.range 4 = [0, 1, 2, 3] := by decide
  unfold readLine
  rw [h4]
  simp only [List.foldl_cons, List.foldl_nil]
  by_cases h3 : i = 3
  · subst h3; simp
  · by_cases h2 : i = 2
    · subst h2; simp
    · by_cases h1 : i = 1
      · subst h1; simp
      · by_cases h0 : i = 0
        · subst h0; simp
        · have : ¬ i < 4 := by omega
          simp [Function.update_noteq, h0, h1, h2, h3, this]

/-- A word read from a store of bytes is the little-endian sum of its four bytes. -/
theorem rword_eq (memory : Nat → Nat) (memad : Nat) (i : Nat) (hm : memad + 15 < 2 ^ 32)
    (hi : i < 4) (hmem : ∀ a, memory a < 256) :
    rword memory memad i =
      memory (memad + 4 * i) + 256 * memory (memad + 4 * i + 1) +
        65536 * memory (memad + 4 * i + 2) + 16777216 * memory (memad + 4 * i + 3) := by
  unfold rword
  have e0 : (memad + i * 4 + 0) % 2 ^ 32 = memad + 4 * i := by
    rw [Nat.mod_eq_of_lt (by omega)]; omega
  have e1 : (memad + i * 4 + 1) % 2 ^ 32 = memad + 4 * i + 1 := by
    rw [Nat.mod_eq_of_lt (by omega)]; omega
  have e2 : (memad + i * 4 + 2) % 2 ^ 32 = memad + 4 * i + 2 := by
    rw [Nat.mod_eq_of_lt (by omega)]; omega
  have e3 : (memad + i * 4 + 3) % 2 ^ 32 = memad + 4 * i + 3 := by
    rw [Nat.mod_eq_of_lt (by omega)]; omega
  rw [e0, e1, e2, e3, le_word _ _ _ _ (hmem _) (hmem _) (hmem _)]
  have h0 := hmem (memad + 4 * i)
  have h1 := hmem (memad + 4 * i + 1)
  have h2 := hmem (memad + 4 * i + 2)
  have h3 := hmem (memad + 4 * i + 3)
  apply Nat.mod_eq_of_lt
  omega

/-- The mask `0xFFFF` enables all sixteen bytes. -/
theorem testBit_full (i : Nat) (hi : i < 16) : Nat.testBit 0xFFFF i = true := by
  rw [show (0xFFFF : Nat) = 2 ^ 16 - 1 by norm_num, Nat.testBit_two_pow_sub_one]
  simpa using hi

/-- A 32-bit word is the little-endian sum of its four byte lanes. -/
theorem word_of_bytes (w : Nat) (hw : w < 2 ^ 32) :
    w / 2 ^ (0 * 8) % 256 + 256 * (w / 2 ^ (1 * 8) % 256) + 65536 * (w / 2 ^ (2 * 8) % 256) +
      16777216 * (w / 2 ^ (3 * 8) % 256) = w := by
  norm_num at hw ⊢
  omega

/-- A cycle that does not fault returns a state. -/
theorem ok_of_not_faults (r : Except String Cmod_MCPU_MEM_mc) (h : faults r = false) :
    ∃ s', r = Except.ok s' := by
  cases r with
  | ok s' => exact ⟨s', rfl⟩
  | error e => simp [faults] at h

/-- A returned state is not a fault. -/
theorem faults_ok (s' : Cmod_MCPU_MEM_mc) : faults (Except.ok s') = false := rfl

/-- Reading back a word of a fully enabled line write gives the written word. -/
theorem rword_writeLine_full (W : Nat → Nat) (memory : Nat → Nat) (memad : Nat) (i : Nat)
    (hm : memad + 15 < 2 ^ 32) (hi : i < 4) (hW : W i < 2 ^ 32) :
    rword (writeLine 0xFFFF W memad memory) memad i = W i := by
  have key : ∀ k, k < 4 →
      writeLine 0xFFFF W memad memory ((memad + i * 4 + k) % 2 ^ 32) =
        W i / 2 ^ (k * 8) % 256 := by
    intro k hk
    have e : (memad + i * 4 + k) % 2 ^ 32 = memad + (i * 4 + k) := by
      rw [Nat.mod_eq_of_lt (by omega)]; omega
    rw [e, writeLine_commit _ _ _ _ hm (i * 4 + k) (by omega) (testBit_full _ (by omega)),
      wbyte_eq]
    have e1 : (i * 4 + k) / 4 = i := by omega
    have e2 : (i * 4 + k) % 4 = k := by omega
    rw [e1, e2]
  unfold rword
  rw [key 0 (by omega), key 1 (by omega), key 2 (by omega), key 3 (by omega),
    le_word _ _ _ _ (Nat.mod_lt _ (by norm_num)) (Nat.mod_lt _ (by norm_num))
      (Nat.mod_lt _ (by norm_num)),
    word_of_bytes _ hW]
  exact Nat.mod_eq_of_lt hW

/-! ## Claims on `clk` -/

/-- C1: full-line write/read round trip. From an idle transactor (no burst outstanding,
previous `read_req` and `write_req` low) with the port ready on both cycles, a `clk` with
`burst_begin`, `write_req`, size 1, byte enable `0xFFFF`, address `A` and data `W`, followed
by a `clk` with `burst_begin`, `read_req`, size 1 and address `A`, raises no fault and
leaves `read_data[i] = W[i]` for `i = 0..3` with `read_data_valid` true. -/
theorem C1_write_read_round_trip (s : Cmod_MCPU_MEM_mc) (A : Nat) (W : Nat → Nat)
    (be2 : Nat) (wd2 : Nat → Nat) (rnd1 rnd2 : Nat)
    (hA : A * 16 + 15 < 2 ^ 32) (hW : ∀ i, i < 4 → W i < 2 ^ 32)
    (hidle : s.burst_cycrem = 0)
    (hrl : s.ltc2mc_avl_read_req_0_last = false)
    (hwl : s.ltc2mc_avl_write_req_0_last = false)
    (hready1 : s.ports.ltc2mc_avl_ready_0 = true) (hready2 : rnd1 < 96) :
    ∃ s1 s2,
      (s.drive { burstbegin := true, read_req := false, write_req := true, addr := A,
                 size := 1, be := 0xFFFF, wdata := W }).clk rnd1 = Except.ok s1 ∧
      (s1.drive { burstbegin := true, read_req := true, write_req := false, addr := A,
                  size := 1, be := be2, wdata := wd2 }).clk rnd2 = Except.ok s2 ∧
      (∀ i, i < 4 → s2.ports.ltc2mc_avl_rdata_0 i = W i) ∧
      s2.ports.ltc2mc_avl_rdata_valid_0 = true := by
  have hf1 : faults ((s.drive { burstbegin := true, read_req := false, write_req := true,
                                addr := A, size := 1, be := 0xFFFF, wdata := W }).clk rnd1) =
      false := by
    rw [Bool.eq_false_iff]
    intro h
    rw [clk_faults_iff] at h
    simp [Cmod_MCPU_MEM_mc.drive, hready1, hidle] at h
  obtain ⟨s1, h1⟩ := ok_of_not_faults _ hf1
  obtain ⟨-, hrdy1, -, -, -, -, hmem1, hcyc1, -⟩ := clk_ok _ _ _ h1
  simp [Cmod_MCPU_MEM_mc.drive, hready1, hidle] at hmem1 hcyc1
  simp [hready2] at hrdy1
  have hf2 : faults ((s1.drive { burstbegin := true, read_req := true, write_req := false,
                                 addr := A, size := 1, be := be2, wdata := wd2 }).clk rnd2) =
      false := by
    rw [Bool.eq_false_iff]
    intro h
    rw [clk_faults_iff] at h
    simp [Cmod_MCPU_MEM_mc.drive, hrdy1, hcyc1] at h
  obtain ⟨s2, h2⟩ := ok_of_not_faults _ hf2
  obtain ⟨-, -, hval2, hrd2, -, -, hmem2, -, -⟩ := clk_ok _ _ _ h2
  simp [Cmod_MCPU_MEM_mc.drive, hrdy1] at hval2 hrd2 hmem2
  refine ⟨s1, s2, h1, h2, ?_, hval2⟩
  intro i hi
  have hm : A * 16 % 2 ^ 32 + 15 < 2 ^ 32 := by omega
  rw [hrd2, readLine_apply, if_pos hi, hmem2, hmem1]
  exact rword_writeLine_full W s.memory _ i hm hi (hW i hi)


/-- C2: byte-enable frame of a write beat. On a ready, non-faulting cycle with `write_req`
asserted at line address `A` with mask `byte_enable`, every backing-store byte other than
the bytes `A*16+i` (`0 <= i < 16`) whose enable bit `i` is set keeps its prior value; in
particular the bytes of line `A` whose enable bit is clear and all bytes of other lines
are unchanged. -/
theorem C2_byte_enable_frame (s s' : Cmod_MCPU_MEM_mc) (rnd : Nat)
    (hr : s.ports.ltc2mc_avl_ready_0 = true)
    (hw : s.ports.ltc2mc_avl_write_req_0 = true)
    (hok : s.clk rnd = Except.ok s')
    (hA : s.ports.ltc2mc_avl_addr_0 * 16 + 15 < 2 ^ 32) :
    (∀ x, (∀ i, i < 16 → s.ports.ltc2mc_avl_be_0.testBit i = true →
          x ≠ s.ports.ltc2mc_avl_addr_0 * 16 + i) → s'.memory x = s.memory x) ∧
    (∀ i, i < 16 → s.ports.ltc2mc_avl_be_0.testBit i = false →
      s'.memory (s.ports.ltc2mc_avl_addr_0 * 16 + i) =
        s.memory (s.ports.ltc2mc_avl_addr_0 * 16 + i)) ∧
    (∀ x, x / 16 ≠ s.ports.ltc2mc_avl_addr_0 → s'.memory x = s.memory x) := by
  obtain ⟨-, -, -, -, -, -, hmem, -, -⟩ := clk_ok _ _ _ hok
  rw [if_pos ⟨hr, hw⟩] at hmem
  have hmod : s.ports.ltc2mc_avl_addr_0 * 16 % 2 ^ 32 = s.ports.ltc2mc_avl_addr_0 * 16 :=
    Nat.mod_eq_of_lt (by omega)
  have frame : ∀ x, (∀ i, i < 16 → s.ports.ltc2mc_avl_be_0.testBit i = true →
      x ≠ s.ports.ltc2mc_avl_addr_0 * 16 + i) → s'.memory x = s.memory x := by
    intro x hx
    rw [hmem]
    apply writeLine_frame
    intro i hi hb
    rw [hmod, Nat.mod_eq_of_lt (by omega)]
    exact Ne.symm (hx i hi hb)
  refine ⟨frame, ?_, ?_⟩
  · intro i hi hb
    apply frame
    intro j hj hbj h
    have : i = j := by omega
    subst this
    rw [hb] at hbj
    exact Bool.noConfusion hbj
  · intro x hx
    apply frame
    intro j hj _ h
    apply hx
    omega

/-- C3: burst-begin transition. On a cycle with the port ready, no burst outstanding and
`burst_begin` asserted, `clk` reports a protocol fault iff `read_req` and `write_req` are
both asserted or both deasserted; when exactly one is asserted the cycle completes, the
direction is latched to read iff `read_req` is asserted and the remaining length is
latched to `size - 1`. -/
theorem C3_burst_begin (s : Cmod_MCPU_MEM_mc) (rnd : Nat)
    (hr : s.ports.ltc2mc_avl_ready_0 = true) (hc : s.burst_cycrem = 0)
    (hb : s.ports.ltc2mc_avl_burstbegin_0 = true) :
    (faults (s.clk rnd) = true ↔
      ((s.ports.ltc2mc_avl_read_req_0 = true ∧ s.ports.ltc2mc_avl_write_req_0 = true) ∨
        (s.ports.ltc2mc_avl_read_req_0 = false ∧ s.ports.ltc2mc_avl_write_req_0 = false))) ∧
    (s.ports.ltc2mc_avl_read_req_0 ≠ s.ports.ltc2mc_avl_write_req_0 →
      ∃ s', s.clk rnd = Except.ok s' ∧
        (s'.burst_rnw = true ↔ s.ports.ltc2mc_avl_read_req_0 = true) ∧
        s'.burst_cycrem = (s.ports.ltc2mc_avl_size_0 : Int) - 1) := by
  have hiff : faults (s.clk rnd) = true ↔
      s.ports.ltc2mc_avl_read_req_0 = s.ports.ltc2mc_avl_write_req_0 := by
    rw [clk_faults_iff]
    simp [hr, hc, hb]
  constructor
  · rw [hiff]
    cases s.ports.ltc2mc_avl_read_req_0 <;> cases s.ports.ltc2mc_avl_write_req_0 <;> simp
  · intro hne
    have hf : faults (s.clk rnd) = false := by
      rw [Bool.eq_false_iff]
      exact fun h => hne (hiff.mp h)
    obtain ⟨s', hok⟩ := ok_of_not_faults _ hf
    obtain ⟨-, -, -, -, -, -, -, hcyc, hrnw⟩ := clk_ok _ _ _ hok
    refine ⟨s', hok, ?_, ?_⟩
    · rw [hrnw, if_pos ⟨hr, hc, hb⟩]
    · rw [hcyc]
      simp [hr, hc, hb]

/-- C4: in-burst transition. On a cycle with the port ready and a burst in progress
(remaining length nonzero), `clk` reports a protocol fault iff the opposite-direction
request (`write_req` in a read burst, `read_req` in a write burst) or `burst_begin` is
asserted; when no fault is raised the cycle completes, the remaining length decreases by
exactly one if the burst-direction request is asserted and is unchanged otherwise, and
the latched direction is unchanged. -/
theorem C4_in_burst (s : Cmod_MCPU_MEM_mc) (rnd : Nat)
    (hr : s.ports.ltc2mc_avl_ready_0 = true) (hc : s.burst_cycrem ≠ 0) :
    (faults (s.clk rnd) = true ↔
      ((s.burst_rnw = true ∧ s.ports.ltc2mc_avl_write_req_0 = true) ∨
        (s.burst_rnw = false ∧ s.ports.ltc2mc_avl_read_req_0 = true) ∨
        s.ports.ltc2mc_avl_burstbegin_0 = true)) ∧
    (faults (s.clk rnd) = false →
      ∃ s', s.clk rnd = Except.ok s' ∧
        s'.burst_cycrem =
          (if (s.burst_rnw = true ∧ s.ports.ltc2mc_avl_read_req_0 = true) ∨
              (s.burst_rnw = false ∧ s.ports.ltc2mc_avl_write_req_0 = true)
            then s.burst_cycrem - 1 else s.burst_cycrem) ∧
        s'.burst_rnw = s.burst_rnw) := by
  constructor
  · rw [clk_faults_iff]
    simp [hr, hc]
  · intro hf
    obtain ⟨s', hok⟩ := ok_of_not_faults _ hf
    obtain ⟨-, -, -, -, -, -, -, hcyc, hrnw⟩ := clk_ok _ _ _ hok
    refine ⟨s', hok, ?_, ?_⟩
    · rw [hcyc]
      cases s.burst_rnw <;> simp [hr, hc]
    · rw [hrnw]
      simp [hc]

/-- C5: idle transition. On a cycle with the port ready, no burst outstanding and
`burst_begin` not asserted, `clk` reports a protocol fault iff `read_req` or `write_req`
is asserted, and when neither is asserted the cycle completes with the burst state
(remaining length, direction) and the backing store unchanged. -/
theorem C5_idle (s : Cmod_MCPU_MEM_mc) (rnd : Nat)
    (hr : s.ports.ltc2mc_avl_ready_0 = true) (hc : s.burst_cycrem = 0)
    (hb : s.ports.ltc2mc_avl_burstbegin_0 = false) :
    (faults (s.clk rnd) = true ↔
      (s.ports.ltc2mc_avl_read_req_0 = true ∨ s.ports.ltc2mc_avl_write_req_0 = true)) ∧
    (s.ports.ltc2mc_avl_read_req_0 = false → s.ports.ltc2mc_avl_write_req_0 = false →
      ∃ s', s.clk rnd = Except.ok s' ∧ s'.burst_cycrem = s.burst_cycrem ∧
        s'.burst_rnw = s.burst_rnw ∧ s'.memory = s.memory) := by
  have hiff : faults (s.clk rnd) = true ↔
      (s.ports.ltc2mc_avl_read_req_0 = true ∨ s.ports.ltc2mc_avl_write_req_0 = true) := by
    rw [clk_faults_iff]
    simp [hr, hc, hb]
  refine ⟨hiff, ?_⟩
  intro hrd hwr
  have hf : faults (s.clk rnd) = false := by
    rw [Bool.eq_false_iff]
    intro h
    have h1 := hiff.mp h
    simp [hrd, hwr] at h1
  obtain ⟨s', hok⟩ := ok_of_not_faults _ hf
  obtain ⟨-, -, -, -, -, -, hmem, hcyc, hrnw⟩ := clk_ok _ _ _ hok
  refine ⟨s', hok, ?_, ?_, ?_⟩
  · rw [hcyc]
    simp [hr, hc, hb]
  · rw [hrnw]
    simp [hb]
  · rw [hmem]
    simp [hwr]


/-- C6: request-hold check. On a cycle on which the port is not ready, `clk` reports a
protocol fault iff `read_req` or `write_req` differs from its value at the previous `clk`;
before the first `clk` both previous values are low (and the port is not ready), so the
first `clk` after construction faults iff `read_req` or `write_req` is asserted. -/
theorem C6_request_hold (s0 s1 : Cmod_MCPU_MEM_mc) (rnd0 rnd : Nat) (r : Request)
    (p : Cmod_MCPU_MEM_mc_ports) (mem : Nat → Nat)
    (hprev : s0.clk rnd0 = Except.ok s1)
    (hnr : s1.ports.ltc2mc_avl_ready_0 = false) :
    (faults ((s1.drive r).clk rnd) = true ↔
      (r.read_req ≠ s0.ports.ltc2mc_avl_read_req_0 ∨
        r.write_req ≠ s0.ports.ltc2mc_avl_write_req_0)) ∧
    (faults (((Cmod_MCPU_MEM_mc.new p mem).drive r).clk rnd) = true ↔
      (r.read_req ≠ false ∨ r.write_req ≠ false)) := by
  obtain ⟨-, -, -, -, hrl, hwl, -, -, -⟩ := clk_ok _ _ _ hprev
  constructor
  · rw [clk_faults_iff]
    simp only [Cmod_MCPU_MEM_mc.drive, hnr, hrl, hwl]
    cases r.read_req <;> cases r.write_req <;>
      cases s0.ports.ltc2mc_avl_read_req_0 <;> cases s0.ports.ltc2mc_avl_write_req_0 <;> simp
  · rw [clk_faults_iff]
    simp only [Cmod_MCPU_MEM_mc.drive, Cmod_MCPU_MEM_mc.new]
    cases r.read_req <;> cases r.write_req <;> simp

/-- C7: read data. On a non-faulting cycle with `read_req` asserted at line address `A`,
after `clk` each `read_data[i]` (`i = 0..3`) is the little-endian 32-bit value of the
current backing-store bytes `A*16+4i .. A*16+4i+3` (byte `4i+k` in bits `8k+7..8k`); on a
cycle without `read_req`, `read_data` keeps its previous value. -/
theorem C7_read_data (s s' : Cmod_MCPU_MEM_mc) (rnd : Nat)
    (hok : s.clk rnd = Except.ok s')
    (hA : s.ports.ltc2mc_avl_addr_0 * 16 + 15 < 2 ^ 32)
    (hbytes : ∀ a, s.memory a < 256) :
    (s.ports.ltc2mc_avl_read_req_0 = true →
      ∀ i, i < 4 →
        s'.ports.ltc2mc_avl_rdata_0 i =
            s'.memory (s.ports.ltc2mc_avl_addr_0 * 16 + 4 * i) +
              256 * s'.memory (s.ports.ltc2mc_avl_addr_0 * 16 + 4 * i + 1) +
              65536 * s'.memory (s.ports.ltc2mc_avl_addr_0 * 16 + 4 * i + 2) +
              16777216 * s'.memory (s.ports.ltc2mc_avl_addr_0 * 16 + 4 * i + 3) ∧
          ∀ k, k < 4 →
            s'.ports.ltc2mc_avl_rdata_0 i / 2 ^ (8 * k) % 256 =
              s'.memory (s.ports.ltc2mc_avl_addr_0 * 16 + 4 * i + k)) ∧
    (s.ports.ltc2mc_avl_read_req_0 = false →
      s'.ports.ltc2mc_avl_rdata_0 = s.ports.ltc2mc_avl_rdata_0) := by
  obtain ⟨-, -, -, hrd, -, -, hmem, -, -⟩ := clk_ok _ _ _ hok
  have hbytes' : ∀ a, s'.memory a < 256 := by
    intro a
    rw [hmem]
    split
    · exact writeLine_lt _ _ _ _ hbytes a
    · exact hbytes a
  have hmod : s.ports.ltc2mc_avl_addr_0 * 16 % 2 ^ 32 = s.ports.ltc2mc_avl_addr_0 * 16 :=
    Nat.mod_eq_of_lt (by omega)
  constructor
  · intro hread i hi
    have hsum : s'.ports.ltc2mc_avl_rdata_0 i =
        s'.memory (s.ports.ltc2mc_avl_addr_0 * 16 + 4 * i) +
          256 * s'.memory (s.ports.ltc2mc_avl_addr_0 * 16 + 4 * i + 1) +
          65536 * s'.memory (s.ports.ltc2mc_avl_addr_0 * 16 + 4 * i + 2) +
          16777216 * s'.memory (s.ports.ltc2mc_avl_addr_0 * 16 + 4 * i + 3) := by
      rw [hrd, if_pos hread, readLine_apply, if_pos hi, hmod,
        rword_eq _ _ _ hA hi hbytes']
    refine ⟨hsum, ?_⟩
    intro k hk
    have h0 := hbytes' (s.ports.ltc2mc_avl_addr_0 * 16 + 4 * i)
    have h1 := hbytes' (s.ports.ltc2mc_avl_addr_0 * 16 + 4 * i + 1)
    have h2 := hbytes' (s.ports.ltc2mc_avl_addr_0 * 16 + 4 * i + 2)
    have h3 := hbytes' (s.ports.ltc2mc_avl_addr_0 * 16 + 4 * i + 3)
    rw [hsum]
    interval_cases k
    · norm_num
      omega
    · norm_num
      omega
    · norm_num
      omega
    · norm_num
      omega
  · intro hread
    rw [hrd]
    simp [hread]

/-- C8: read-data-valid. On every non-faulting cycle, `read_data_valid` after `clk` is true
iff `read_req` was asserted on that cycle and the port was ready at the start of that
cycle; a read request presented while the port is not ready produces no valid data. -/
theorem C8_read_data_valid (s s' : Cmod_MCPU_MEM_mc) (rnd : Nat)
    (hok : s.clk rnd = Except.ok s') :
    (s'.ports.ltc2mc_avl_rdata_valid_0 = true ↔
      (s.ports.ltc2mc_avl_read_req_0 = true ∧ s.ports.ltc2mc_avl_ready_0 = true)) ∧
    (s.ports.ltc2mc_avl_ready_0 = false → s'.ports.ltc2mc_avl_rdata_valid_0 = false) := by
  obtain ⟨-, -, hval, -, -, -, -, -, -⟩ := clk_ok _ _ _ hok
  rw [hval]
  constructor
  · simp
  · intro h
    simp [h]

/-- C9 (amended): write commit on a ready cycle. On every `clk` cycle on which the port is
ready, `write_req` is asserted at line address `A` and no protocol fault is raised, after
the cycle, for each `i` in `0..15` whose `byte_enable` bit `i` is set, the backing-store
byte at `A*16+i` equals byte `i mod 4` of `write_data[i div 4]`, that is
`(write_data[i/4] >> 8*(i%4)) & 0xFF`. -/
theorem C9_write_commit_ready (s s' : Cmod_MCPU_MEM_mc) (rnd : Nat)
    (hr : s.ports.ltc2mc_avl_ready_0 = true)
    (hw : s.ports.ltc2mc_avl_write_req_0 = true)
    (hok : s.clk rnd = Except.ok s')
    (hA : s.ports.ltc2mc_avl_addr_0 * 16 + 15 < 2 ^ 32) :
    ∀ i, i < 16 → s.ports.ltc2mc_avl_be_0.testBit i = true →
      s'.memory (s.ports.ltc2mc_avl_addr_0 * 16 + i) =
          (s.ports.ltc2mc_avl_wdata_0 (i / 4) >>> (8 * (i % 4))) &&& 0xFF ∧
        s'.memory (s.ports.ltc2mc_avl_addr_0 * 16 + i) =
          s.ports.ltc2mc_avl_wdata_0 (i / 4) / 2 ^ (8 * (i % 4)) % 256 := by
  intro i hi hb
  obtain ⟨-, -, -, -, -, -, hmem, -, -⟩ := clk_ok _ _ _ hok
  rw [if_pos ⟨hr, hw⟩] at hmem
  have hmod : s.ports.ltc2mc_avl_addr_0 * 16 % 2 ^ 32 = s.ports.ltc2mc_avl_addr_0 * 16 :=
    Nat.mod_eq_of_lt (by omega)
  rw [hmod] at hmem
  have hbyte : s'.memory (s.ports.ltc2mc_avl_addr_0 * 16 + i) =
      wbyte s.ports.ltc2mc_avl_wdata_0 i := by
    rw [hmem]
    exact writeLine_commit _ _ _ _ hA i hi hb
  constructor
  · rw [hbyte, wbyte, Nat.mul_comm]
  · rw [hbyte, wbyte_eq, Nat.mul_comm]

/-- C10: no work while not ready. On a cycle on which the port is not ready and `clk`
raises no fault, the backing store, the remaining burst length and the latched burst
direction after `clk` equal their values before `clk`, whatever request
(`burst_begin`, address, size, `byte_enable`, `write_data`, `read_req`, `write_req`)
is on the input ports. -/
theorem C10_not_ready_no_work (s s' : Cmod_MCPU_MEM_mc) (r : Request) (rnd : Nat)
    (hnr : s.ports.ltc2mc_avl_ready_0 = false)
    (hok : (s.drive r).clk rnd = Except.ok s') :
    s'.memory = s.memory ∧ s'.burst_cycrem = s.burst_cycrem ∧ s'.burst_rnw = s.burst_rnw := by
  obtain ⟨-, -, -, -, -, -, hmem, hcyc, hrnw⟩ := clk_ok _ _ _ hok
  simp only [Cmod_MCPU_MEM_mc.drive, hnr] at hmem hcyc hrnw
  refine ⟨?_, ?_, ?_⟩
  · rw [hmem]
    simp
  · rw [hcyc]
    simp
  · rw [hrnw]
    simp


/-! ## The claims at concrete inputs -/

/-- Witness of C1: a full-line write of `exW` at line 3 followed by a read of line 3. -/
theorem C1_write_read_round_trip_witness :
    (3 * 16 + 15 < 2 ^ 32) ∧ (∀ i, i < 4 → exW i < 2 ^ 32) ∧ exIdle.burst_cycrem = 0 ∧
    exIdle.ltc2mc_avl_read_req_0_last = false ∧ exIdle.ltc2mc_avl_write_req_0_last = false ∧
    exIdle.ports.ltc2mc_avl_ready_0 = true ∧ 5 < 96 ∧
    ∃ s1 s2,
      (exIdle.drive { burstbegin := true, read_req := false, write_req := true, addr := 3,
                      size := 1, be := 0xFFFF, wdata := exW }).clk 5 = Except.ok s1 ∧
      (s1.drive { burstbegin := true, read_req := true, write_req := false, addr := 3,
                  size := 1, be := 0, wdata := exW2 }).clk 99 = Except.ok s2 ∧
      (∀ i, i < 4 → s2.ports.ltc2mc_avl_rdata_0 i = exW i) ∧
      s2.ports.ltc2mc_avl_rdata_valid_0 = true :=
  ⟨by decide, by decide, rfl, rfl, rfl, rfl, by decide,
    C1_write_read_round_trip exIdle 3 exW 0 exW2 5 99 (by decide) (by decide) rfl rfl rfl rfl
      (by decide)⟩

/-- Witness of C2: a write at line 3 enabling bytes 4..7; byte 1 of line 3 and byte 100 of
another line keep their values. -/
theorem C2_byte_enable_frame_witness :
    exWriteCycle.ports.ltc2mc_avl_ready_0 = true ∧
    exWriteCycle.ports.ltc2mc_avl_write_req_0 = true ∧
    exWriteCycle.clk 0 = Except.ok (stateAfter (exWriteCycle.clk 0) exWriteCycle) ∧
    exWriteCycle.ports.ltc2mc_avl_addr_0 * 16 + 15 < 2 ^ 32 ∧
    (stateAfter (exWriteCycle.clk 0) exWriteCycle).memory (3 * 16 + 1) =
      exWriteCycle.memory (3 * 16 + 1) ∧
    (stateAfter (exWriteCycle.clk 0) exWriteCycle).memory 100 = exWriteCycle.memory 100 :=
  ⟨rfl, rfl, rfl, by decide,
    (C2_byte_enable_frame exWriteCycle (stateAfter (exWriteCycle.clk 0) exWriteCycle) 0
      rfl rfl rfl (by decide)).2.1 1 (by decide) (by decide),
    (C2_byte_enable_frame exWriteCycle (stateAfter (exWriteCycle.clk 0) exWriteCycle) 0
      rfl rfl rfl (by decide)).2.2 100 (by decide)⟩

/-- Witness of C3: a read burst of size 4 begun on an idle, ready port. -/
theorem C3_burst_begin_witness :
    exReadCycle.ports.ltc2mc_avl_ready_0 = true ∧ exReadCycle.burst_cycrem = 0 ∧
    exReadCycle.ports.ltc2mc_avl_burstbegin_0 = true ∧
    (faults (exReadCycle.clk 0) = true ↔
      ((exReadCycle.ports.ltc2mc_avl_read_req_0 = true ∧
          exReadCycle.ports.ltc2mc_avl_write_req_0 = true) ∨
        (exReadCycle.ports.ltc2mc_avl_read_req_0 = false ∧
          exReadCycle.ports.ltc2mc_avl_write_req_0 = false))) ∧
    (exReadCycle.ports.ltc2mc_avl_read_req_0 ≠ exReadCycle.ports.ltc2mc_avl_write_req_0 →
      ∃ s', exReadCycle.clk 0 = Except.ok s' ∧
        (s'.burst_rnw = true ↔ exReadCycle.ports.ltc2mc_avl_read_req_0 = true) ∧
        s'.burst_cycrem = (exReadCycle.ports.ltc2mc_avl_size_0 : Int) - 1) :=
  ⟨rfl, rfl, rfl, C3_burst_begin exReadCycle 0 rfl rfl rfl⟩

/-- Witness of C4: a read beat inside a read burst with three beats remaining. -/
theorem C4_in_burst_witness :
    exInReadCycle.ports.ltc2mc_avl_ready_0 = true ∧ exInReadCycle.burst_cycrem ≠ 0 ∧
    (faults (exInReadCycle.clk 0) = true ↔
      ((exInReadCycle.burst_rnw = true ∧ exInReadCycle.ports.ltc2mc_avl_write_req_0 = true) ∨
        (exInReadCycle.burst_rnw = false ∧
          exInReadCycle.ports.ltc2mc_avl_read_req_0 = true) ∨
        exInReadCycle.ports.ltc2mc_avl_burstbegin_0 = true)) ∧
    (faults (exInReadCycle.clk 0) = false →
      ∃ s', exInReadCycle.clk 0 = Except.ok s' ∧
        s'.burst_cycrem =
          (if (exInReadCycle.burst_rnw = true ∧
                exInReadCycle.ports.ltc2mc_avl_read_req_0 = true) ∨
              (exInReadCycle.burst_rnw = false ∧
                exInReadCycle.ports.ltc2mc_avl_write_req_0 = true)
            then exInReadCycle.burst_cycrem - 1 else exInReadCycle.burst_cycrem) ∧
        s'.burst_rnw = exInReadCycle.burst_rnw) :=
  ⟨rfl, by decide, C4_in_burst exInReadCycle 0 rfl (by decide)⟩

/-- Witness of C5: an idle cycle with no request on a ready port. -/
theorem C5_idle_witness :
    exIdleCycle.ports.ltc2mc_avl_ready_0 = true ∧ exIdleCycle.burst_cycrem = 0 ∧
    exIdleCycle.ports.ltc2mc_avl_burstbegin_0 = false ∧
    (faults (exIdleCycle.clk 0) = true ↔
      (exIdleCycle.ports.ltc2mc_avl_read_req_0 = true ∨
        exIdleCycle.ports.ltc2mc_avl_write_req_0 = true)) ∧
    (exIdleCycle.ports.ltc2mc_avl_read_req_0 = false →
      exIdleCycle.ports.ltc2mc_avl_write_req_0 = false →
      ∃ s', exIdleCycle.clk 0 = Except.ok s' ∧ s'.burst_cycrem = exIdleCycle.burst_cycrem ∧
        s'.burst_rnw = exIdleCycle.burst_rnw ∧ s'.memory = exIdleCycle.memory) :=
  ⟨rfl, rfl, rfl, C5_idle exIdleCycle 0 rfl rfl rfl⟩

/-- Witness of C6: the first beat of a write burst leaves the port not ready (draw 99);
the requester then presents the second beat. -/
theorem C6_request_hold_witness :
    exWriteBegin2Cycle.clk 99 =
      Except.ok (stateAfter (exWriteBegin2Cycle.clk 99) exWriteBegin2Cycle) ∧
    (stateAfter (exWriteBegin2Cycle.clk 99) exWriteBegin2Cycle).ports.ltc2mc_avl_ready_0 =
      false ∧
    (faults (((stateAfter (exWriteBegin2Cycle.clk 99) exWriteBegin2Cycle).drive
        exWriteBeat2).clk 0) = true ↔
      (exWriteBeat2.read_req ≠ exWriteBegin2Cycle.ports.ltc2mc_avl_read_req_0 ∨
        exWriteBeat2.write_req ≠ exWriteBegin2Cycle.ports.ltc2mc_avl_write_req_0)) ∧
    (faults (((Cmod_MCPU_MEM_mc.new exPorts exMem).drive exWriteBeat2).clk 0) = true ↔
      (exWriteBeat2.read_req ≠ false ∨ exWriteBeat2.write_req ≠ false)) :=
  ⟨rfl, rfl,
    C6_request_hold exWriteBegin2Cycle (stateAfter (exWriteBegin2Cycle.clk 99) exWriteBegin2Cycle)
      99 0 exWriteBeat2 exPorts exMem rfl rfl⟩

/-- Witness of C7: a read at line 3 of the store `exMem`; word 0 is assembled from bytes
48..51, which hold `0x53, 0x5A, 0x61, 0x68`. -/
theorem C7_read_data_witness :
    exReadCycle.clk 0 = Except.ok (stateAfter (exReadCycle.clk 0) exReadCycle) ∧
    exReadCycle.ports.ltc2mc_avl_addr_0 * 16 + 15 < 2 ^ 32 ∧
    (∀ a, exReadCycle.memory a < 256) ∧
    ((stateAfter (exReadCycle.clk 0) exReadCycle).ports.ltc2mc_avl_rdata_0 0 =
      (stateAfter (exReadCycle.clk 0) exReadCycle).memory (3 * 16 + 4 * 0) +
        256 * (stateAfter (exReadCycle.clk 0) exReadCycle).memory (3 * 16 + 4 * 0 + 1) +
        65536 * (stateAfter (exReadCycle.clk 0) exReadCycle).memory (3 * 16 + 4 * 0 + 2) +
        16777216 * (stateAfter (exReadCycle.clk 0) exReadCycle).memory (3 * 16 + 4 * 0 + 3)) ∧
    (stateAfter (exReadCycle.clk 0) exReadCycle).ports.ltc2mc_avl_rdata_0 0 = 0x68615A53 :=
  ⟨rfl, by decide, fun a => Nat.mod_lt (7 * a + 3) (by decide),
    ((C7_read_data exReadCycle (stateAfter (exReadCycle.clk 0) exReadCycle) 0 rfl (by decide)
      (fun a => Nat.mod_lt (7 * a + 3) (by decide))).1 rfl 0 (by decide)).1,
    by decide⟩

/-- Witness of C8: a read request on a ready port yields valid data. -/
theorem C8_read_data_valid_witness :
    exReadCycle.clk 0 = Except.ok (stateAfter (exReadCycle.clk 0) exReadCycle) ∧
    ((stateAfter (exReadCycle.clk 0) exReadCycle).ports.ltc2mc_avl_rdata_valid_0 = true ↔
      (exReadCycle.ports.ltc2mc_avl_read_req_0 = true ∧
        exReadCycle.ports.ltc2mc_avl_ready_0 = true)) ∧
    (exReadCycle.ports.ltc2mc_avl_ready_0 = false →
      (stateAfter (exReadCycle.clk 0) exReadCycle).ports.ltc2mc_avl_rdata_valid_0 = false) :=
  ⟨rfl, C8_read_data_valid exReadCycle (stateAfter (exReadCycle.clk 0) exReadCycle) 0 rfl⟩

/-- Counterexample to C9 as stated. The run construction, idle cycle, first write beat
(draw 99) ends not ready in `exStalled`. On the next cycle `write_req` is asserted (held)
with all bytes enabled and data `0xEE..`, no fault is raised, and byte 0 of line 0 is not
the presented data byte: the write is not committed while the port is not ready. So the
statement for every non-faulting cycle with `write_req` asserted is false. -/
theorem C9_counterexample :
    exInit.run [(exNoReq, 0), (exWriteBegin2, 99)] = Except.ok exStalled ∧
    exStallCycle.ports.ltc2mc_avl_write_req_0 = true ∧
    exStallCycle.clk 0 = Except.ok (stateAfter (exStallCycle.clk 0) exStallCycle) ∧
    exStallCycle.ports.ltc2mc_avl_be_0.testBit 0 = true ∧
    (stateAfter (exStallCycle.clk 0) exStallCycle).memory
        (exStallCycle.ports.ltc2mc_avl_addr_0 * 16 + 0) ≠
      (exStallCycle.ports.ltc2mc_avl_wdata_0 (0 / 4) >>> (8 * (0 % 4))) &&& 0xFF ∧
    ¬ (∀ (s s' : Cmod_MCPU_MEM_mc) (rnd : Nat),
        s.ports.ltc2mc_avl_write_req_0 = true → s.clk rnd = Except.ok s' →
        s.ports.ltc2mc_avl_addr_0 * 16 + 15 < 2 ^ 32 →
        ∀ i, i < 16 → s.ports.ltc2mc_avl_be_0.testBit i = true →
          s'.memory (s.ports.ltc2mc_avl_addr_0 * 16 + i) =
            (s.ports.ltc2mc_avl_wdata_0 (i / 4) >>> (8 * (i % 4))) &&& 0xFF) :=
  ⟨rfl, rfl, rfl, by decide, by decide,
    fun h => absurd
      (h exStallCycle (stateAfter (exStallCycle.clk 0) exStallCycle) 0 rfl rfl (by decide)
        0 (by decide) (by decide))
      (by decide)⟩

/-- Witness of C9 (amended): the partial write at line 3 on a ready port commits byte 5. -/
theorem C9_write_commit_ready_witness :
    exWriteCycle.ports.ltc2mc_avl_ready_0 = true ∧
    exWriteCycle.ports.ltc2mc_avl_write_req_0 = true ∧
    exWriteCycle.clk 0 = Except.ok (stateAfter (exWriteCycle.clk 0) exWriteCycle) ∧
    exWriteCycle.ports.ltc2mc_avl_addr_0 * 16 + 15 < 2 ^ 32 ∧
    (stateAfter (exWriteCycle.clk 0) exWriteCycle).memory (3 * 16 + 5) =
      (exW (5 / 4) >>> (8 * (5 % 4))) &&& 0xFF :=
  ⟨rfl, rfl, rfl, by decide,
    ((C9_write_commit_ready exWriteCycle (stateAfter (exWriteCycle.clk 0) exWriteCycle) 0
      rfl rfl rfl (by decide)) 5 (by decide) (by decide)).1⟩

/-- Witness of C10: while stalled, the held second write beat changes nothing. -/
theorem C10_not_ready_no_work_witness :
    exStalled.ports.ltc2mc_avl_ready_0 = false ∧
    (exStalled.drive exWriteBeat2).clk 0 =
      Except.ok (stateAfter ((exStalled.drive exWriteBeat2).clk 0) exStalled) ∧
    (stateAfter ((exStalled.drive exWriteBeat2).clk 0) exStalled).memory = exStalled.memory ∧
    (stateAfter ((exStalled.drive exWriteBeat2).clk 0) exStalled).burst_cycrem =
      exStalled.burst_cycrem ∧
    (stateAfter ((exStalled.drive exWriteBeat2).clk 0) exStalled).burst_rnw =
      exStalled.burst_rnw :=
  ⟨rfl, rfl,
    C10_not_ready_no_work exStalled
      (stateAfter ((exStalled.drive exWriteBeat2).clk 0) exStalled) exWriteBeat2 0 rfl rfl⟩

/-! ## Claims on runs of `clk` -/

/-- A completed cycle did not fault. -/
theorem not_faults_of_ok (s s' : Cmod_MCPU_MEM_mc) (rnd : Nat)
    (h : s.clk rnd = Except.ok s') : faults (s.clk rnd) = false := by
  rw [h]
  rfl

/-- C11 (the code at the failing input): after construction, an idle cycle and the first
beat of a write burst, the port is not ready (draw 99). The requester then keeps
`read_req` and `write_req` and changes `burst_begin`, address, size, byte enables and
write data. The next `clk` reports no protocol fault, and the whole run completes. -/
theorem C11_changed_lines_accepted :
    exInit.run [(exNoReq, 0), (exWriteBegin2, 99)] = Except.ok exStalled ∧
    exStalled.ports.ltc2mc_avl_ready_0 = false ∧
    exChanged.burstbegin ≠ exStalled.ports.ltc2mc_avl_burstbegin_0 ∧
    exChanged.addr ≠ exStalled.ports.ltc2mc_avl_addr_0 ∧
    exChanged.size ≠ exStalled.ports.ltc2mc_avl_size_0 ∧
    exChanged.be ≠ exStalled.ports.ltc2mc_avl_be_0 ∧
    exChanged.wdata 0 ≠ exStalled.ports.ltc2mc_avl_wdata_0 0 ∧
    faults ((exStalled.drive exChanged).clk 0) = false ∧
    faults (exInit.run [(exNoReq, 0), (exWriteBegin2, 99), (exChanged, 0)]) = false :=
  ⟨rfl, rfl, by decide, by decide, by decide, by decide, by decide, by decide, by decide⟩

/-- C12: the backing store is mutated only by write-burst beats. On a `clk` cycle that
raises no fault, if a backing-store byte differs after the cycle then the port was ready,
`write_req` was asserted, and the cycle was either a burst begin latching a write burst
or a beat of a write burst in progress (remaining length nonzero, direction write); a
not-ready cycle and a cycle without `write_req` (read burst, idle) leave memory as it is. -/
theorem C12_memory_only_by_write_beats (s s' : Cmod_MCPU_MEM_mc) (rnd : Nat)
    (hok : s.clk rnd = Except.ok s') :
    (∀ x, s'.memory x ≠ s.memory x →
      s.ports.ltc2mc_avl_ready_0 = true ∧ s.ports.ltc2mc_avl_write_req_0 = true ∧
      s.ports.ltc2mc_avl_read_req_0 = false ∧
      ((s.burst_cycrem = 0 ∧ s.ports.ltc2mc_avl_burstbegin_0 = true ∧
          s'.burst_rnw = false) ∨
        (s.burst_cycrem ≠ 0 ∧ s.burst_rnw = false ∧
          s.ports.ltc2mc_avl_burstbegin_0 = false))) ∧
    (s.ports.ltc2mc_avl_ready_0 = false → s'.memory = s.memory) ∧
    (s.ports.ltc2mc_avl_write_req_0 = false → s'.memory = s.memory) := by
  have hnf := not_faults_of_ok s s' rnd hok
  rw [Bool.eq_false_iff, Ne, clk_faults_iff] at hnf
  obtain ⟨-, -, -, -, -, -, hmem, -, hrnw⟩ := clk_ok _ _ _ hok
  refine ⟨?_, ?_, ?_⟩
  · intro x hx
    by_cases hrw : s.ports.ltc2mc_avl_ready_0 = true ∧ s.ports.ltc2mc_avl_write_req_0 = true
    · obtain ⟨hr, hw⟩ := hrw
      by_cases hc : s.burst_cycrem = 0
      · cases hb : s.ports.ltc2mc_avl_burstbegin_0 <;>
          cases hrd : s.ports.ltc2mc_avl_read_req_0 <;>
          simp [hr, hw, hc, hb, hrd] at hnf hrnw ⊢
        exact hrnw
      · cases hb : s.ports.ltc2mc_avl_burstbegin_0 <;>
          cases hrd : s.ports.ltc2mc_avl_read_req_0 <;>
          cases hd : s.burst_rnw <;>
          simp [hr, hw, hc, hb, hrd, hd] at hnf ⊢
    · rw [hmem, if_neg hrw] at hx
      exact absurd rfl hx
  · intro hr
    rw [hmem]
    simp [hr]
  · intro hw
    rw [hmem]
    simp [hw]

/-- C18: next-cycle readiness depends only on the random draw. After a `clk` that raises
no fault the ready output is true iff the draw of `Sim::random(100)` is less than 96; two
cycles with the same draw, from any two states and request inputs, end with the same
ready value. -/
theorem C18_ready_depends_on_draw (s1 s2 s1' s2' : Cmod_MCPU_MEM_mc) (rnd : Nat)
    (h1 : s1.clk rnd = Except.ok s1') (h2 : s2.clk rnd = Except.ok s2') :
    (s1'.ports.ltc2mc_avl_ready_0 = true ↔ rnd < 96) ∧
    s1'.ports.ltc2mc_avl_ready_0 = s2'.ports.ltc2mc_avl_ready_0 := by
  obtain ⟨-, hr1, -⟩ := clk_ok _ _ _ h1
  obtain ⟨-, hr2, -⟩ := clk_ok _ _ _ h2
  rw [hr1, hr2]
  simp

/-- A completed run from a state whose previous request lines are not both high never
sees `read_req` and `write_req` asserted together. -/
theorem run_not_both (l : List (Request × Nat)) :
    ∀ (s s' : Cmod_MCPU_MEM_mc),
      ¬ (s.ltc2mc_avl_read_req_0_last = true ∧ s.ltc2mc_avl_write_req_0_last = true) →
      s.run l = Except.ok s' →
      ∀ q, q ∈ l → ¬ (q.1.read_req = true ∧ q.1.write_req = true) := by
  induction l with
  | nil =>
    intro s s' _ _ q hq
    simp at hq
  | cons a rest ih =>
    intro s s' hinv hrun q hq
    obtain ⟨r, rnd⟩ := a
    rw [Cmod_MCPU_MEM_mc.run] at hrun
    cases hstep : (s.drive r).clk rnd with
    | error e =>
      rw [hstep] at hrun
      simp at hrun
    | ok s1 =>
      rw [hstep] at hrun
      simp only at hrun
      have hnf := not_faults_of_ok _ _ _ hstep
      rw [Bool.eq_false_iff, Ne, clk_faults_iff] at hnf
      obtain ⟨-, -, -, -, hrl, hwl, -, -, -⟩ := clk_ok _ _ _ hstep
      have hhead : ¬ (r.read_req = true ∧ r.write_req = true) := by
        intro hboth
        obtain ⟨hrd, hwr⟩ := hboth
        apply hnf
        simp only [Cmod_MCPU_MEM_mc.drive, hrd, hwr]
        by_cases hc : s.burst_cycrem = 0
        · cases hb : r.burstbegin <;> cases hrdy : s.ports.ltc2mc_avl_ready_0 <;>
            cases hl1 : s.ltc2mc_avl_read_req_0_last <;>
            cases hl2 : s.ltc2mc_avl_write_req_0_last <;>
            simp [hc, hl1, hl2] at hinv ⊢
        · cases hd : s.burst_rnw <;> cases hrdy : s.ports.ltc2mc_avl_ready_0 <;>
            cases hl1 : s.ltc2mc_avl_read_req_0_last <;>
            cases hl2 : s.ltc2mc_avl_write_req_0_last <;>
            simp [hc, hl1, hl2] at hinv ⊢
      rcases List.mem_cons.mp hq with hq1 | hq2
      · rw [hq1]
        exact hhead
      · apply ih s1 s' _ hrun q hq2
        rw [hrl, hwl]
        simpa [Cmod_MCPU_MEM_mc.drive] using hhead

/-- C19: read and write are never requested together in a fault-free run. For every run
of `clk` cycles from the constructed initial state, with any draws (so any readiness),
if no `clk` raises a protocol fault then on no cycle are `read_req` and `write_req` both
asserted; and the first `clk` after construction raises a fault if `read_req` or
`write_req` is asserted. -/
theorem C19_no_simultaneous_read_write (p : Cmod_MCPU_MEM_mc_ports) (mem : Nat → Nat)
    (l : List (Request × Nat)) (s' : Cmod_MCPU_MEM_mc)
    (hrun : (Cmod_MCPU_MEM_mc.new p mem).run l = Except.ok s') :
    (∀ q, q ∈ l → ¬ (q.1.read_req = true ∧ q.1.write_req = true)) ∧
    (∀ (r : Request) (rnd : Nat), (r.read_req = true ∨ r.write_req = true) →
      faults (((Cmod_MCPU_MEM_mc.new p mem).drive r).clk rnd) = true) := by
  constructor
  · apply run_not_both l (Cmod_MCPU_MEM_mc.new p mem) s' _ hrun
    simp [Cmod_MCPU_MEM_mc.new]
  · intro r rnd h
    rw [clk_faults_iff]
    left
    simp only [Cmod_MCPU_MEM_mc.drive, Cmod_MCPU_MEM_mc.new]
    rcases h with h | h <;> simp [h]

/-- Beats of a burst in progress: from a ready state inside a burst of direction `dir`
with `c` beats remaining, any `k <= c` beats in the burst direction, each followed by a
ready port, complete and leave `c - k` beats remaining. -/
theorem run_beats (dir : Bool) (beats : List (Request × Nat)) :
    ∀ (t : Cmod_MCPU_MEM_mc) (c : Int),
      t.ports.ltc2mc_avl_ready_0 = true → t.burst_cycrem = c → t.burst_rnw = dir →
      (beats.length : Int) ≤ c →
      (∀ q, q ∈ beats → q.1.burstbegin = false ∧ q.1.read_req = dir ∧
        q.1.write_req = (!dir) ∧ q.2 < 96) →
      ∃ t', t.run beats = Except.ok t' ∧ t'.burst_cycrem = c - beats.length ∧
        t'.burst_rnw = dir ∧ t'.ports.ltc2mc_avl_ready_0 = true := by
  induction beats with
  | nil =>
    intro t c hr hc hd _ _
    exact ⟨t, rfl, by simp [hc], hd, hr⟩
  | cons a rest ih =>
    intro t c hr hc hd hlen hall
    obtain ⟨r, rnd⟩ := a
    obtain ⟨hbb, hrd, hwr, hrnd⟩ := hall (r, rnd) (List.mem_cons_self _ _)
    simp only at hbb hrd hwr hrnd
    have hlen' : (rest.length : Int) + 1 ≤ c := by
      simpa using hlen
    have hcne : t.burst_cycrem ≠ 0 := by
      rw [hc]
      omega
    have hf : faults ((t.drive r).clk rnd) = false := by
      rw [Bool.eq_false_iff, Ne, clk_faults_iff]
      simp only [Cmod_MCPU_MEM_mc.drive, hr, hd, hbb, hrd, hwr]
      cases dir <;> simp [hcne]
    obtain ⟨t1, hstep⟩ := ok_of_not_faults _ hf
    obtain ⟨-, hrdy1, -, -, -, -, -, hcyc1, hrnw1⟩ := clk_ok _ _ _ hstep
    simp only [Cmod_MCPU_MEM_mc.drive, hr, hd, hbb, hrd, hwr] at hcyc1 hrnw1
    have hcyc1' : t1.burst_cycrem = c - 1 := by
      rw [hcyc1, ← hc]
      cases dir <;> simp [hcne]
    have hrnw1' : t1.burst_rnw = dir := by
      rw [hrnw1]
      simp
    have hrdy1' : t1.ports.ltc2mc_avl_ready_0 = true := by
      rw [hrdy1]
      simpa using hrnd
    obtain ⟨t', hrun, hc', hd', hr'⟩ :=
      ih t1 (c - 1) hrdy1' hcyc1' hrnw1' (by omega)
        (fun q hq => hall q (List.mem_cons_of_mem _ hq))
    refine ⟨t', ?_, ?_, hd', hr'⟩
    · rw [Cmod_MCPU_MEM_mc.run, hstep]
      exact hrun
    · rw [hc']
      simp only [List.length_cons, Nat.cast_add, Nat.cast_one]
      omega

/-- C16: a burst of declared size `N` consumes exactly `N` beats. For every `N >= 1` and
either direction (`dir` true for read), from an idle state with the port ready on every
cycle, the burst-begin cycle followed by `k` further beats in the burst direction
(`0 <= k <= N-1`) completes with remaining length `N-1-k`; a new `burst_begin` then raises
a protocol fault while fewer than `N` beats have been consumed (`k < N-1`) and is accepted
after the `N`-th beat (`k = N-1`). -/
theorem C16_burst_consumes_size_beats (s : Cmod_MCPU_MEM_mc) (N : Nat) (dir : Bool)
    (r0 : Request) (rnd0 : Nat) (beats : List (Request × Nat))
    (hN : 1 ≤ N) (hready : s.ports.ltc2mc_avl_ready_0 = true) (hidle : s.burst_cycrem = 0)
    (hbegin : r0.burstbegin = true ∧ r0.read_req = dir ∧ r0.write_req = (!dir) ∧ r0.size = N)
    (hrnd0 : rnd0 < 96)
    (hbeats : ∀ q, q ∈ beats → q.1.burstbegin = false ∧ q.1.read_req = dir ∧
      q.1.write_req = (!dir) ∧ q.2 < 96)
    (hk : beats.length ≤ N - 1) :
    ∃ s', s.run ((r0, rnd0) :: beats) = Except.ok s' ∧
      s'.burst_cycrem = (N : Int) - 1 - beats.length ∧ s'.burst_rnw = dir ∧
      s'.ports.ltc2mc_avl_ready_0 = true ∧
      (beats.length < N - 1 → ∀ (r : Request) (rnd : Nat), r.burstbegin = true →
        faults ((s'.drive r).clk rnd) = true) ∧
      (beats.length = N - 1 → ∀ (r : Request) (rnd : Nat), r.burstbegin = true →
        r.read_req ≠ r.write_req → faults ((s'.drive r).clk rnd) = false) := by
  obtain ⟨hbb, hrd, hwr, hsz⟩ := hbegin
  have hf : faults ((s.drive r0).clk rnd0) = false := by
    rw [Bool.eq_false_iff, Ne, clk_faults_iff]
    simp only [Cmod_MCPU_MEM_mc.drive, hready, hidle, hbb, hrd, hwr]
    cases dir <;> simp
  obtain ⟨s1, hstep⟩ := ok_of_not_faults _ hf
  obtain ⟨-, hrdy1, -, -, -, -, -, hcyc1, hrnw1⟩ := clk_ok _ _ _ hstep
  simp only [Cmod_MCPU_MEM_mc.drive, hready, hidle, hbb, hrd, hwr, hsz] at hcyc1 hrnw1
  have hcyc1' : s1.burst_cycrem = (N : Int) - 1 := by
    rw [hcyc1]
    simp
  have hrnw1' : s1.burst_rnw = dir := by
    rw [hrnw1]
    simp
  have hrdy1' : s1.ports.ltc2mc_avl_ready_0 = true := by
    rw [hrdy1]
    simpa using hrnd0
  obtain ⟨s', hrun, hc', hd', hr'⟩ :=
    run_beats dir beats s1 ((N : Int) - 1) hrdy1' hcyc1' hrnw1' (by omega) hbeats
  refine ⟨s', ?_, hc', hd', hr', ?_, ?_⟩
  · rw [Cmod_MCPU_MEM_mc.run, hstep]
    exact hrun
  · intro hlt r rnd hb
    rw [clk_faults_iff]
    right
    left
    have hne : s'.burst_cycrem ≠ 0 := by
      rw [hc']
      omega
    simp [Cmod_MCPU_MEM_mc.drive, hr', hne, hb]
  · intro heq r rnd hb hx
    have hz : s'.burst_cycrem = 0 := by
      rw [hc']
      omega
    rw [Bool.eq_false_iff, Ne, clk_faults_iff]
    simp only [Cmod_MCPU_MEM_mc.drive, hr', hz, hb]
    cases hrr : r.read_req <;> cases hww : r.write_req <;> simp [hrr, hww] at hx ⊢

/-! ## Claims on the bit-field macros -/

/-- The subtrahend of `BIT_MASK`: `(1U << a) - 1` is `2 ^ a - 1` for `a <= 31`. -/
theorem low_ones (a : Nat) (ha : a ≤ 31) :
    ((1 <<< a) % 2 ^ 32 + 2 ^ 32 - 1) % 2 ^ 32 = 2 ^ a - 1 := by
  have hlt : 2 ^ a < 2 ^ 32 := Nat.pow_lt_pow_right (by norm_num) (by omega)
  have hpos : 0 < 2 ^ a := Nat.two_pow_pos a
  rw [Nat.one_shiftLeft, Nat.mod_eq_of_lt hlt]
  have e : 2 ^ a + 2 ^ 32 - 1 = (2 ^ a - 1) + 2 ^ 32 := by omega
  rw [e, Nat.add_mod_right, Nat.mod_eq_of_lt (by omega)]

/-- Bit `i` of `BIT_MASK a b` is set iff `a <= i <= b`. -/
theorem testBit_BIT_MASK (a b i : Nat) (ha : a ≤ 31) (hb : b ≤ 31) :
    (BIT_MASK a b).testBit i = (decide (a ≤ i) && decide (i ≤ b)) := by
  unfold BIT_MASK
  rw [low_ones a ha, Nat.testBit_and, Nat.testBit_shiftRight, Nat.testBit_xor,
    Nat.testBit_two_pow_sub_one, Nat.testBit_two_pow_sub_one, Nat.testBit_two_pow_sub_one]
  by_cases h1 : a ≤ i <;> by_cases h2 : i ≤ b
  · have e1 : 31 - b + i < 32 := by omega
    have e2 : ¬ i < a := by omega
    have e3 : i < 32 := by omega
    simp [h1, h2, e1, e2, e3]
  · have e1 : ¬ 31 - b + i < 32 := by omega
    simp [h1, h2, e1]
  · have e2 : i < a := by omega
    have e3 : i < 32 := by omega
    simp [h1, h2, e2, e3]
  · have e1 : ¬ 31 - b + i < 32 := by omega
    simp [h1, h2, e1]

/-- Bit `i` of `2 ^ n - 2 ^ a` for `a <= n` is set iff `a <= i < n`. -/
theorem testBit_pow_sub_pow (a n i : Nat) (han : a ≤ n) :
    (2 ^ n - 2 ^ a).testBit i = (decide (a ≤ i) && decide (i < n)) := by
  have hle : 2 ^ a ≤ 2 ^ n := Nat.pow_le_pow_right (by norm_num) han
  have hpos : 0 < 2 ^ a := Nat.two_pow_pos a
  have e : 2 ^ n - 2 ^ a = 2 ^ n - ((2 ^ a - 1) + 1) := by omega
  rw [e, Nat.testBit_two_pow_sub_succ (by omega), Nat.testBit_two_pow_sub_one]
  by_cases h1 : a ≤ i <;> by_cases h2 : i < n
  · have : ¬ i < a := by omega
    simp [h1, h2, this]
  · simp [h1, h2]
  · have : i < a := by omega
    simp [h1, h2, this]
  · simp [h1, h2]

/-- C17: `BIT_MASK` as documented. For all `a`, `b` with `0 <= a <= 31` and
`0 <= b <= 31`, `BIT_MASK(a, b)` in 32-bit unsigned arithmetic has bit `i` set iff
`a <= i <= b`; so it is `2^(b+1) - 2^a` when `a <= b`, and `0` when `a > b`. -/
theorem C17_bit_mask (a b : Nat) (ha : a ≤ 31) (hb : b ≤ 31) :
    (∀ i, (BIT_MASK a b).testBit i = true ↔ (a ≤ i ∧ i ≤ b)) ∧
    (a ≤ b → BIT_MASK a b = 2 ^ (b + 1) - 2 ^ a) ∧
    (b < a → BIT_MASK a b = 0) := by
  refine ⟨?_, ?_, ?_⟩
  · intro i
    rw [testBit_BIT_MASK a b i ha hb]
    simp
  · intro hab
    apply Nat.eq_of_testBit_eq
    intro i
    rw [testBit_BIT_MASK a b i ha hb, testBit_pow_sub_pow a (b + 1) i (by omega)]
    by_cases h1 : a ≤ i <;> by_cases h2 : i ≤ b <;> simp [h1, h2, Nat.lt_succ_iff]
  · intro hba
    apply Nat.eq_of_testBit_eq
    intro i
    rw [testBit_BIT_MASK a b i ha hb, Nat.zero_testBit]
    by_cases h1 : a ≤ i
    · have : ¬ i ≤ b := by omega
      simp [h1, this]
    · simp [h1]

/-- The field extracted by `BITS` is the shifted word reduced modulo `2 ^ count`. -/
theorem BITS_eq (word idx count : Nat) (hc : 1 ≤ count) (hic : idx + count ≤ 32) :
    BITS word idx count = (word >>> idx) % 2 ^ count := by
  unfold BITS
  apply Nat.eq_of_testBit_eq
  intro i
  rw [Nat.testBit_shiftRight, Nat.testBit_and,
    testBit_BIT_MASK idx (idx + count - 1) (idx + i) (by omega) (by omega),
    Nat.testBit_mod_two_pow, Nat.testBit_shiftRight]
  by_cases h : i < count
  · have h2 : idx + i ≤ idx + count - 1 := by omega
    simp [h, h2]
  · have h2 : ¬ idx + i ≤ idx + count - 1 := by omega
    simp [h, h2]

/-- C20: `BITS` extracts a bit field. For every 32-bit word and all `idx >= 0`,
`count >= 1` with `idx + count <= 32`, `BITS(word, idx, count) = (word >> idx) mod 2^count`,
and `BIT(word, idx)` is bit `idx` of the word (0 or 1); `BITS(0xD1183C00, 29, 3) = 6`. -/
theorem C20_bits_field (word idx count : Nat) (hw : word < 2 ^ 32) (hc : 1 ≤ count)
    (hic : idx + count ≤ 32) :
    BITS word idx count = (word >>> idx) % 2 ^ count ∧
    BITS word idx count = word / 2 ^ idx % 2 ^ count ∧
    BIT word idx = (word.testBit idx).toNat ∧
    BIT word idx ≤ 1 ∧
    BITS 0xD1183C00 29 3 = 6 := by
  have h1 := BITS_eq word idx count hc hic
  have hbit : BIT word idx = (word.testBit idx).toNat := by
    unfold BIT
    rw [BITS_eq word idx 1 (Nat.le_refl 1) (by omega), Nat.toNat_testBit,
      Nat.shiftRight_eq_div_pow]
    norm_num
  refine ⟨h1, ?_, hbit, ?_, by decide⟩
  · rw [h1, Nat.shiftRight_eq_div_pow]
  · rw [hbit]
    cases word.testBit idx <;> simp

/-! ## The later claims at concrete inputs -/

/-- Witness of C12: the partial write at line 3 changes byte 53 on a ready port. -/
theorem C12_memory_only_by_write_beats_witness :
    exWriteCycle.clk 0 = Except.ok (stateAfter (exWriteCycle.clk 0) exWriteCycle) ∧
    (stateAfter (exWriteCycle.clk 0) exWriteCycle).memory 53 ≠ exWriteCycle.memory 53 ∧
    (exWriteCycle.ports.ltc2mc_avl_ready_0 = true ∧
      exWriteCycle.ports.ltc2mc_avl_write_req_0 = true ∧
      exWriteCycle.ports.ltc2mc_avl_read_req_0 = false ∧
      ((exWriteCycle.burst_cycrem = 0 ∧ exWriteCycle.ports.ltc2mc_avl_burstbegin_0 = true ∧
          (stateAfter (exWriteCycle.clk 0) exWriteCycle).burst_rnw = false) ∨
        (exWriteCycle.burst_cycrem ≠ 0 ∧ exWriteCycle.burst_rnw = false ∧
          exWriteCycle.ports.ltc2mc_avl_burstbegin_0 = false))) :=
  ⟨rfl, by decide,
    (C12_memory_only_by_write_beats exWriteCycle (stateAfter (exWriteCycle.clk 0) exWriteCycle)
      0 rfl).1 53 (by decide)⟩

/-- Witness of C16: a two-beat write burst from the idle ready state, one further beat. -/
theorem C16_burst_consumes_size_beats_witness :
    1 ≤ 2 ∧ exIdle.ports.ltc2mc_avl_ready_0 = true ∧ exIdle.burst_cycrem = 0 ∧
    (exWriteBegin2.burstbegin = true ∧ exWriteBegin2.read_req = false ∧
      exWriteBegin2.write_req = (!false) ∧ exWriteBegin2.size = 2) ∧
    0 < 96 ∧
    (∀ q, q ∈ [(exWriteBeat2, 5)] → q.1.burstbegin = false ∧ q.1.read_req = false ∧
      q.1.write_req = (!false) ∧ q.2 < 96) ∧
    [(exWriteBeat2, 5)].length ≤ 2 - 1 ∧
    ∃ s', exIdle.run ((exWriteBegin2, 0) :: [(exWriteBeat2, 5)]) = Except.ok s' ∧
      s'.burst_cycrem = ((2 : Nat) : Int) - 1 - [(exWriteBeat2, 5)].length ∧
      s'.burst_rnw = false ∧ s'.ports.ltc2mc_avl_ready_0 = true ∧
      ([(exWriteBeat2, 5)].length < 2 - 1 → ∀ (r : Request) (rnd : Nat),
        r.burstbegin = true → faults ((s'.drive r).clk rnd) = true) ∧
      ([(exWriteBeat2, 5)].length = 2 - 1 → ∀ (r : Request) (rnd : Nat),
        r.burstbegin = true → r.read_req ≠ r.write_req →
        faults ((s'.drive r).clk rnd) = false) :=
  ⟨by decide, rfl, rfl, ⟨rfl, rfl, rfl, rfl⟩, by decide,
    by simp [exWriteBeat2],
    by decide,
    C16_burst_consumes_size_beats exIdle 2 false exWriteBegin2 0 [(exWriteBeat2, 5)]
      (by decide) rfl rfl ⟨rfl, rfl, rfl, rfl⟩ (by decide)
      (by simp [exWriteBeat2])
      (by decide)⟩

/-- Witness of C17: the mask of the three predicate bits 29..31. -/
theorem C17_bit_mask_witness :
    29 ≤ 31 ∧ 31 ≤ 31 ∧
    (∀ i, (BIT_MASK 29 31).testBit i = true ↔ (29 ≤ i ∧ i ≤ 31)) ∧
    (29 ≤ 31 → BIT_MASK 29 31 = 2 ^ (31 + 1) - 2 ^ 29) ∧
    (31 < 29 → BIT_MASK 29 31 = 0) :=
  ⟨by decide, by decide, C17_bit_mask 29 31 (by decide) (by decide)⟩

/-- Witness of C18: a read begin on a ready port and a stalled write, both with draw 0. -/
theorem C18_ready_depends_on_draw_witness :
    exReadCycle.clk 0 = Except.ok (stateAfter (exReadCycle.clk 0) exReadCycle) ∧
    exStallCycle.clk 0 = Except.ok (stateAfter (exStallCycle.clk 0) exStallCycle) ∧
    ((stateAfter (exReadCycle.clk 0) exReadCycle).ports.ltc2mc_avl_ready_0 = true ↔ 0 < 96) ∧
    (stateAfter (exReadCycle.clk 0) exReadCycle).ports.ltc2mc_avl_ready_0 =
      (stateAfter (exStallCycle.clk 0) exStallCycle).ports.ltc2mc_avl_ready_0 :=
  ⟨rfl, rfl,
    C18_ready_depends_on_draw exReadCycle exStallCycle
      (stateAfter (exReadCycle.clk 0) exReadCycle)
      (stateAfter (exStallCycle.clk 0) exStallCycle) 0 rfl rfl⟩

/-- Witness of C19: the fault-free run of an idle cycle and a write burst begin. -/
theorem C19_no_simultaneous_read_write_witness :
    (Cmod_MCPU_MEM_mc.new exPorts exMem).run [(exNoReq, 0), (exWriteBegin2, 99)] =
      Except.ok exStalled ∧
    (∀ q, q ∈ [(exNoReq, 0), (exWriteBegin2, 99)] →
      ¬ (q.1.read_req = true ∧ q.1.write_req = true)) ∧
    (∀ (r : Request) (rnd : Nat), (r.read_req = true ∨ r.write_req = true) →
      faults (((Cmod_MCPU_MEM_mc.new exPorts exMem).drive r).clk rnd) = true) :=
  ⟨rfl,
    C19_no_simultaneous_read_write exPorts exMem [(exNoReq, 0), (exWriteBegin2, 99)]
      exStalled rfl⟩

/-- Witness of C20: the predicate field of the documented `HALT` word. -/
theorem C20_bits_field_witness :
    0xD1183C00 < 2 ^ 32 ∧ 1 ≤ 3 ∧ 29 + 3 ≤ 32 ∧
    BITS 0xD1183C00 29 3 = (0xD1183C00 >>> 29) % 2 ^ 3 ∧
    BITS 0xD1183C00 29 3 = 0xD1183C00 / 2 ^ 29 % 2 ^ 3 ∧
    BIT 0xD1183C00 29 = (Nat.testBit 0xD1183C00 29).toNat ∧
    BIT 0xD1183C00 29 ≤ 1 ∧
    BITS 0xD1183C00 29 3 = 6 :=
  ⟨by decide, by decide, by decide,
    C20_bits_field 0xD1183C00 29 3 (by decide) (by decide) (by decide)⟩

/-! ## Claims on the packet executor -/

/-- The four lane commits of a packet, listed. -/
theorem lane_commits_eq (bus : Nat → Nat) (pk : decoded_packet) (s : CPUState) :
    lane_commits bus pk s =
      [lane_execute bus (pk.instr 0) s s.cpu.regs.pc,
       lane_execute bus (pk.instr 1) s s.cpu.regs.pc,
       lane_execute bus (pk.instr 2) s s.cpu.regs.pc,
       lane_execute bus (pk.instr 3) s s.cpu.regs.pc] := rfl

/-- A squashed commit writes no general register and no predicate flag. -/
theorem apply_squash (c : Commit) (old_pc : Nat) (acc : CPUState) :
    (c.apply true old_pc acc).cpu.regs.r = acc.cpu.regs.r ∧
    (c.apply true old_pc acc).p = acc.p := by
  cases c <;> simp [Commit.apply]

/-- An inactive lane produces no commit. -/
theorem lane_execute_inactive (bus : Nat → Nat) (di : decoded_instruction) (s : CPUState)
    (old_pc : Nat) (h : lane_active di s = false) :
    lane_execute bus di s old_pc = Commit.nothing := by
  simp [lane_execute, h]

/-- An ALU lane neither redirects the PC nor signals. -/
theorem alu_commit_kind (di : decoded_instruction) (r : Nat → Nat) :
    (alu_commit di r).target = none ∧ (alu_commit di r).isSignal = false := by
  unfold alu_commit
  repeat' split
  all_goals exact ⟨rfl, rfl⟩

/-- A LoadStore lane neither redirects the PC nor signals. -/
theorem lsu_commit_kind (bus : Nat → Nat) (di : decoded_instruction) (r : Nat → Nat) :
    (lsu_commit bus di r).target = none ∧ (lsu_commit bus di r).isSignal = false := by
  unfold lsu_commit
  repeat' split
  all_goals exact ⟨rfl, rfl⟩

/-- The lanes that signal: active Other-class lanes with a signalling sub-opcode. -/
theorem lane_execute_isSignal (bus : Nat → Nat) (di : decoded_instruction) (s : CPUState)
    (old_pc : Nat) :
    (lane_execute bus di s old_pc).isSignal = lane_signals di s := by
  unfold lane_execute lane_signals
  cases ha : lane_active di s
  · simp [Commit.isSignal]
  · cases ho : di.optype
    · cases hb : branch_target di s.cpu.regs.r old_pc <;> simp [Commit.isSignal]
    · simp [(alu_commit_kind di s.cpu.regs.r).2]
    · simp [(lsu_commit_kind bus di s.cpu.regs.r).2]
    · cases hop : di.otherop with
      | none => simp [Commit.isSignal]
      | some op => cases hs : otherop_signals op <;> simp [Commit.isSignal, hs]
    · simp [Commit.isSignal]

/-- A packet whose four lanes are inactive only advances the PC. -/
theorem execute_packet_inactive (bus : Nat → Nat) (pk : decoded_packet) (s : CPUState)
    (h : ∀ i, i < 4 → lane_active (pk.instr i) s = false) :
    execute_packet bus pk s =
      { terminal := false, fault := false,
        state :=
          { s with cpu := { regs := { s.cpu.regs with pc := (s.cpu.regs.pc + 4) % 2 ^ 32 } } } } := by
  unfold execute_packet
  simp only [lane_commits_eq,
    lane_execute_inactive bus _ s _ (h 0 (by omega)),
    lane_execute_inactive bus _ s _ (h 1 (by omega)),
    lane_execute_inactive bus _ s _ (h 2 (by omega)),
    lane_execute_inactive bus _ s _ (h 3 (by omega))]
  simp [Commit.isSignal, Commit.isFault, Commit.apply]

/-- C14: predicate gating. For every CPU state and every instruction whose predicate
(flag `pred_reg` XOR `pred_comp`) evaluates false, executing it signals nothing and
changes no general register, no predicate flag and no PC; a packet of such instructions
changes no general register and no predicate flag and only advances the PC by the
fall-through 4 slots; within any packet the instruction can be exchanged for any other
inactive one without changing the result. In particular the documented `NOP`
`0xE0000000` (`ADD R0 <- R0 + R0` under `!P3`) is inactive when `P3` is true and leaves
`R0` unchanged for every value of `R0`. -/
theorem C14_predicate_gating (bus : Nat → Nat) (di di' : decoded_instruction)
    (pk pk' : decoded_packet) (s s1 : CPUState) (old_pc i : Nat)
    (hdi : lane_active di s = false)
    (hpk : ∀ j, j < 4 → lane_active (pk.instr j) s = false)
    (hi : i < 4) (hlane : pk'.instr i = di) (hdi' : lane_active di' s = false)
    (hp3 : s1.p 3 = true) :
    execute_instruction bus di s old_pc = (false, s) ∧
    ((execute_packet bus pk s).state.cpu.regs.r = s.cpu.regs.r ∧
      (execute_packet bus pk s).state.p = s.p ∧
      (execute_packet bus pk s).state.cpu.regs.pc = (s.cpu.regs.pc + 4) % 2 ^ 32 ∧
      (execute_packet bus pk s).terminal = false) ∧
    execute_packet bus pk' s =
      execute_packet bus { instr := fun j => if j = i then di' else pk'.instr j } s ∧
    (instr_NOP.raw_instr = 0xE0000000 ∧ lane_active instr_NOP s1 = false ∧
      (execute_instruction bus instr_NOP s1 old_pc).2.cpu.regs.r 0 = s1.cpu.regs.r 0 ∧
      (execute_packet bus { instr := fun _ => instr_NOP } s1).state.cpu.regs.r 0 =
        s1.cpu.regs.r 0) := by
  have hnop : lane_active instr_NOP s1 = false := by
    simp [lane_active, instr_NOP, hp3]
  refine ⟨?_, ?_, ?_, rfl, hnop, ?_, ?_⟩
  · unfold execute_instruction
    rw [lane_execute_inactive bus di s old_pc hdi]
    rfl
  · rw [execute_packet_inactive bus pk s hpk]
    exact ⟨rfl, rfl, rfl, rfl⟩
  · have hcommits : lane_commits bus pk' s =
        lane_commits bus { instr := fun j => if j = i then di' else pk'.instr j } s := by
      rw [lane_commits_eq, lane_commits_eq]
      interval_cases i <;>
        simp [hlane, lane_execute_inactive bus di s _ hdi,
          lane_execute_inactive bus di' s _ hdi']
    unfold execute_packet
    rw [hcommits]
  · unfold execute_instruction
    rw [lane_execute_inactive bus instr_NOP s1 old_pc hnop]
    rfl
  · rw [execute_packet_inactive bus _ s1 (fun _ _ => hnop)]

/-- The general registers and predicate flags after a squashed packet are those before. -/
theorem foldl_squash (old_pc : Nat) (cs : List Commit) :
    ∀ acc : CPUState,
      (cs.foldl (fun a c => c.apply true old_pc a) acc).cpu.regs.r = acc.cpu.regs.r ∧
      (cs.foldl (fun a c => c.apply true old_pc a) acc).p = acc.p := by
  induction cs with
  | nil =>
    intro acc
    exact ⟨rfl, rfl⟩
  | cons c rest ih =>
    intro acc
    rw [List.foldl_cons]
    obtain ⟨h1, h2⟩ := ih (c.apply true old_pc acc)
    obtain ⟨h3, h4⟩ := apply_squash c old_pc acc
    exact ⟨h1.trans h3, h2.trans h4⟩

/-- The packet-terminal status: some lane signals. -/
theorem execute_packet_terminal (bus : Nat → Nat) (pk : decoded_packet) (s : CPUState) :
    (execute_packet bus pk s).terminal =
      (lane_signals (pk.instr 0) s || lane_signals (pk.instr 1) s ||
        lane_signals (pk.instr 2) s || lane_signals (pk.instr 3) s) := by
  unfold execute_packet
  simp only [lane_commits_eq, List.any_cons, List.any_nil, lane_execute_isSignal,
    Bool.or_false, Bool.or_assoc]

/-- C15: BREAK halts the program. For every CPU state, `execute_packet` on a packet with
an Other-class `BREAK` lane whose predicate is true returns the packet-terminal result
(true) and leaves all general registers (and predicate flags) unchanged; the loop of
`main` that fetched this packet stops after it. The documented `HALT` word `0xD1183C00`
(`BREAK 0x1F` under `P3`) is such an instruction when `P3` is true. A packet with no
active break, syscall or other exception lane returns false. -/
theorem C15_break_halts (bus : Nat → Nat) (decode : Nat → decoded_instruction)
    (rom : Nat → Nat) (pk pk' : decoded_packet) (s s' : CPUState) (i fuel : Nat)
    (hi : i < 4)
    (hbreak : (pk.instr i).optype = optype_t.OTHER_OP ∧
      (pk.instr i).otherop = some otherop_t.OTHER_BREAK)
    (hact : lane_active (pk.instr i) s = true)
    (hfetch : decoded_packet_of decode (fetch_packet rom s.cpu.regs.pc) = pk)
    (hnone : ∀ j, j < 4 → lane_signals (pk'.instr j) s' = false) :
    (execute_packet bus pk s).terminal = true ∧
    (execute_packet bus pk s).state.cpu.regs.r = s.cpu.regs.r ∧
    (execute_packet bus pk s).state.p = s.p ∧
    main_loop bus decode rom (fuel + 1) s = (true, (execute_packet bus pk s).state) ∧
    (instr_HALT.raw_instr = 0xD1183C00 ∧ instr_HALT.optype = optype_t.OTHER_OP ∧
      instr_HALT.otherop = some otherop_t.OTHER_BREAK ∧
      (s.p 3 = true → lane_active instr_HALT s = true)) ∧
    (execute_packet bus pk' s').terminal = false := by
  have hsig : lane_signals (pk.instr i) s = true := by
    simp [lane_signals, hact, hbreak.1, hbreak.2, otherop_signals]
  have hterm : (execute_packet bus pk s).terminal = true := by
    rw [execute_packet_terminal]
    interval_cases i <;> simp [hsig]
  have hstate : (execute_packet bus pk s).state =
      (lane_commits bus pk s).foldl (fun a c => c.apply true s.cpu.regs.pc a)
        { s with cpu := { regs := { s.cpu.regs with pc := (s.cpu.regs.pc + 4) % 2 ^ 32 } } } := by
    have ht : (lane_commits bus pk s).any Commit.isSignal = true := hterm
    unfold execute_packet
    simp only [ht, Bool.true_or]
  refine ⟨hterm, ?_, ?_, ?_, ⟨rfl, rfl, rfl, ?_⟩, ?_⟩
  · rw [hstate]
    exact (foldl_squash _ _ _).1
  · rw [hstate]
    exact (foldl_squash _ _ _).2
  · rw [main_loop, hfetch]
    simp [hterm]
  · intro hp3
    simp [lane_active, instr_HALT, hp3]
  · rw [execute_packet_terminal]
    simp [hnone 0 (by omega), hnone 1 (by omega), hnone 2 (by omega), hnone 3 (by omega)]

/-- Witness of C14: the `NOP` in the test state, whose `P3` is set. -/
theorem C14_predicate_gating_witness :
    lane_active instr_NOP exCpu = false ∧
    (∀ j, j < 4 → lane_active (exNopPacket.instr j) exCpu = false) ∧
    1 < 4 ∧ exAddPacket.instr 1 = instr_NOP ∧ lane_active exInactiveAdd exCpu = false ∧
    exCpu.p 3 = true ∧
    execute_instruction exBus instr_NOP exCpu 0 = (false, exCpu) ∧
    (execute_packet exBus exNopPacket exCpu).state.cpu.regs.r = exCpu.cpu.regs.r ∧
    execute_packet exBus exAddPacket exCpu =
      execute_packet exBus
        { instr := fun j => if j = 1 then exInactiveAdd else exAddPacket.instr j } exCpu :=
  ⟨rfl, fun _ _ => rfl, by decide, rfl, rfl, rfl,
    (C14_predicate_gating exBus instr_NOP exInactiveAdd exNopPacket exAddPacket exCpu exCpu
      0 1 rfl (fun _ _ => rfl) (by decide) rfl rfl rfl).1,
    (C14_predicate_gating exBus instr_NOP exInactiveAdd exNopPacket exAddPacket exCpu exCpu
      0 1 rfl (fun _ _ => rfl) (by decide) rfl rfl rfl).2.1.1,
    (C14_predicate_gating exBus instr_NOP exInactiveAdd exNopPacket exAddPacket exCpu exCpu
      0 1 rfl (fun _ _ => rfl) (by decide) rfl rfl rfl).2.2.1⟩

/-- Witness of C15: the `HALT` packet at slot 4 of the first test program; the scenario
packet of C13 has no signalling lane. The first test program stops after two packets. -/
theorem C15_break_halts_witness :
    0 < 4 ∧
    ((exHaltPacket.instr 0).optype = optype_t.OTHER_OP ∧
      (exHaltPacket.instr 0).otherop = some otherop_t.OTHER_BREAK) ∧
    lane_active (exHaltPacket.instr 0) exCpu4 = true ∧
    decoded_packet_of docDecode (fetch_packet ROM0 exCpu4.cpu.regs.pc) = exHaltPacket ∧
    (∀ j, j < 4 → lane_signals (exAddPacket.instr j) exCpu = false) ∧
    (execute_packet exBus exHaltPacket exCpu4).terminal = true ∧
    (execute_packet exBus exHaltPacket exCpu4).state.cpu.regs.r = exCpu4.cpu.regs.r ∧
    main_loop exBus docDecode ROM0 (0 + 1) exCpu4 =
      (true, (execute_packet exBus exHaltPacket exCpu4).state) ∧
    (execute_packet exBus exAddPacket exCpu).terminal = false ∧
    (main_loop exBus docDecode ROM0 2 exCpu).1 = true :=
  ⟨by decide, ⟨rfl, rfl⟩, rfl, rfl, by decide,
    (C15_break_halts exBus docDecode ROM0 exHaltPacket exAddPacket exCpu4 exCpu 0 0
      (by decide) ⟨rfl, rfl⟩ rfl rfl (by decide)).1,
    (C15_break_halts exBus docDecode ROM0 exHaltPacket exAddPacket exCpu4 exCpu 0 0
      (by decide) ⟨rfl, rfl⟩ rfl rfl (by decide)).2.1,
    (C15_break_halts exBus docDecode ROM0 exHaltPacket exAddPacket exCpu4 exCpu 0 0
      (by decide) ⟨rfl, rfl⟩ rfl rfl (by decide)).2.2.2.1,
    (C15_break_halts exBus docDecode ROM0 exHaltPacket exAddPacket exCpu4 exCpu 0 0
      (by decide) ⟨rfl, rfl⟩ rfl rfl (by decide)).2.2.2.2.2,
    by decide⟩

end MCPU
